import Mathlib

/-!
Shallow embedding of the Vector Index & Recommendation Engine of the Manifold
repository (src/src/intelligence/VectorStore.ts and the RecommendationEngine
class), together with theorems settling the frozen claims C1..C10.

Modelling conventions:
* JavaScript numbers are modelled as `ℝ`; all arithmetic (including
  `Math.sqrt`, `Math.min`, `Math.max`) is exact real arithmetic.
* A JS `Map` is modelled as an association list `List (key × value)` whose
  keys are pairwise distinct (JS `Map.set` replaces in place; `setKV` below
  mirrors that).  Insertion order of the list is the `Map` iteration order.
* `Date` values are modelled as real-valued millisecond timestamps that are
  passed explicitly (`now : ℝ`) where the source calls `new Date()` /
  `Date.now()`.
* A `throw` is modelled with `Except String`; `try/catch` becomes a `match`
  on the `Except` value.
* The remote/local embedding provider (`generateEmbedding`, which catches all
  provider failures internally and always resolves with a vector) is modelled
  as an explicit total parameter `E : String → List ℝ`.
* `Math.random()`-based centroid initialisation is modelled by an explicit
  list of choices `seeds : List Nat`, reduced modulo the number of vectors
  (the source draws `Math.floor(Math.random() * vectors.length)`).
-/

/-- JS string truthiness for an optional string: `undefined` and `""` are falsy. -/
def strTruthy : Option String → Bool
  | none => false
  | some s => ¬ (s = "")

/-- `opt || dflt` for an optional string value (empty string falls back). -/
def truthyGetD : Option String → String → String
  | none, d => d
  | some s, d => if s = "" then d else s

/-- `n || dflt` for an optional number used as a count (`0` is falsy in JS). -/
def natTruthyGetD : Option Nat → Nat → Nat
  | none, d => d
  | some n, d => if n = 0 then d else n

/-- JS `Map.set` on an association list: replace the value in place if the key
is present (keeping its position), otherwise append the new entry at the end. -/
def setKV {β : Type} (k : String) (v : β) : List (String × β) → List (String × β)
  | [] => [(k, v)]
  | (k', v') :: rest => if k' = k then (k, v) :: rest else (k', v') :: setKV k v rest

/-- Index-value pairs of a list starting at a given index (used where the
source maps with an array index). -/
def enumIdxFrom {α : Type} : Nat → List α → List (Nat × α)
  | _, [] => []
  | i, a :: as => (i, a) :: enumIdxFrom (i + 1) as

/-- Index-value pairs of a list, indices from 0. -/
def enumIdx {α : Type} (l : List α) : List (Nat × α) := enumIdxFrom 0 l

/-- ToInt32 as used by JS bitwise operations (`hash & hash`). -/
def toInt32 (x : Int) : Int := (x + 2 ^ 31) % 2 ^ 32 - 2 ^ 31

/-- `simpleHash` (VectorStore.ts:468): `hash = ((hash << 5) - hash) + charCode`,
coerced to a 32-bit integer each round, absolute value at the end.  Characters
are modelled by their code points (identical to UTF-16 code units on the BMP). -/
def simpleHash (s : String) : Nat :=
  (s.toList.foldl (fun h c => toInt32 (toInt32 (h * 32) - h + c.toNat)) 0).natAbs

/-- Digit characters for `Number.prototype.toString(36)`. -/
def base36digit (n : Nat) : Char :=
  "0123456789abcdefghijklmnopqrstuvwxyz".toList.getD n '0'

/-- Base-36 rendering of a natural number, as `toString(36)` produces. -/
def toBase36Go (n : Nat) (acc : List Char) : List Char :=
  if h : n = 0 then acc
  else toBase36Go (n / 36) (base36digit (n % 36) :: acc)
termination_by n
decreasing_by exact Nat.div_lt_self (Nat.pos_of_ne_zero h) (by norm_num)

/-- `Number.prototype.toString(36)` on a natural number. -/
def toBase36 (n : Nat) : String :=
  if n = 0 then "0" else String.mk (toBase36Go n [])

/-- `generateCacheKey` (VectorStore.ts:481): `simpleHash(content).toString(36)`. -/
def generateCacheKey (content : String) : String := toBase36 (simpleHash content)

/-- `ContextItem` as consumed by this core: id, type tag, title, content,
preview, creation timestamp (ms), open metadata bag (string-valued entries). -/
structure ContextItem where
  id : String
  type : String
  title : String
  content : String
  preview : String
  timestamp : ℝ
  metadata : List (String × String)

/-- `VectorData` (VectorStore.ts:4). -/
structure VectorData where
  id : String
  vector : List ℝ
  metadata : List (String × String)
  timestamp : ℝ

/-- `SimilarityResult` (VectorStore.ts:11). -/
structure SimilarityResult where
  item : ContextItem
  similarity : ℝ
  vector : List ℝ

/-- `ClusterResult` (VectorStore.ts:17). -/
structure ClusterResult where
  clusterId : String
  items : List ContextItem
  centroid : List ℝ
  coherence : ℝ

/-- The mutable state of a `VectorStore` instance: the `vectors` map and the
`embeddingCache` map, both keyed by strings in insertion order. -/
structure VectorStoreState where
  vectors : List (String × VectorData)
  embeddingCache : List (String × List ℝ)

/-- The empty store (fresh `VectorStore`). -/
def emptyVectorStore : VectorStoreState := ⟨[], []⟩

/-- Fixed index dimension (VectorStore.ts:28). -/
def VECTOR_DIMENSION : Nat := 1536

namespace VectorStore

/-- `embedContent` (VectorStore.ts:38): consult the content-keyed cache, else
obtain a vector from the provider (modelled by the total function `E`, since
`generateEmbedding` recovers from every provider failure by falling back to
the local embedding) and cache it.  Returns the vector and the updated cache. -/
def embedContent (E : String → List ℝ) (cache : List (String × List ℝ))
    (content : String) : List ℝ × List (String × List ℝ) :=
  match cache.lookup (generateCacheKey content) with
  | some v => (v, cache)
  | none => (E content, setKV (generateCacheKey content) (E content) cache)

/-- `storeVector` (VectorStore.ts:66): embed the content and overwrite the
record for `id` with metadata extended by the 500-character content summary
and the content length.  `now` models `new Date()`. -/
def storeVector (E : String → List ℝ) (st : VectorStoreState) (id content : String)
    (metadata : List (String × String)) (now : ℝ) : VectorStoreState :=
  let ec := embedContent E st.embeddingCache content
  let md := setKV "contentLength" (toString content.length)
      (setKV "content" (content.take 500) metadata)
  { vectors := setKV id ⟨id, ec.1, md, now⟩ st.vectors, embeddingCache := ec.2 }

/-- The `ContextItem` reconstructed from a stored record
(VectorStore.ts:501 and the identical RecommendationEngine copy):
`type = metadata.type || 'text'`, `title = metadata.title || '未知标题'`,
`content = metadata.content || ''`, `preview = content?.substring(0,100) || ''`. -/
def contextItemFromRecord (id : String) (vd : VectorData) : ContextItem :=
  { id := id
    type := truthyGetD (vd.metadata.lookup "type") "text"
    title := truthyGetD (vd.metadata.lookup "title") "未知标题"
    content := (vd.metadata.lookup "content").getD ""
    preview := ((vd.metadata.lookup "content").map (fun c => c.take 100)).getD ""
    timestamp := vd.timestamp
    metadata := vd.metadata }

/-- `createContextItemFromVector` (VectorStore.ts:501): looks the id up again
and throws `向量数据不存在` when absent. -/
def createContextItemFromVector (st : VectorStoreState) (id : String) :
    Except String ContextItem :=
  match st.vectors.lookup id with
  | none => .error ("向量数据不存在: " ++ id)
  | some vd => .ok (contextItemFromRecord id vd)

/-- Dot product of two equal-length vectors (the similarity loop accumulates
`vector1[i] * vector2[i]` over the common index range). -/
def dotProd (a b : List ℝ) : ℝ := (a.zipWith (fun x y => x * y) b).sum

/-- The magnitude computed by `calculateCosineSimilarity`. -/
noncomputable def magnitude (a : List ℝ) : ℝ := Real.sqrt (dotProd a a)

/-- `calculateCosineSimilarity` (VectorStore.ts:326): throws on mismatched
dimension; returns 0 when either magnitude is zero; else dot over product of
magnitudes. -/
noncomputable def calculateCosineSimilarity (v1 v2 : List ℝ) : Except String ℝ :=
  if v1.length ≠ v2.length then .error "向量维度不匹配"
  else if magnitude v1 = 0 ∨ magnitude v2 = 0 then .ok 0
  else .ok (dotProd v1 v2 / (magnitude v1 * magnitude v2))

/-- Stable insertion into a descending-sorted list: the new element goes after
every element whose key is ≥ its own. -/
noncomputable def insertByDesc {α : Type} (f : α → ℝ) (x : α) : List α → List α
  | [] => [x]
  | y :: ys => if f x ≤ f y then y :: insertByDesc f x ys else x :: y :: ys

/-- `Array.prototype.sort((a, b) => key b - key a)`: a stable descending sort
(stability is guaranteed by the JS spec; a stable sort of a total preorder is
unique, so insertion sort models it exactly). -/
noncomputable def sortByDesc {α : Type} (f : α → ℝ) (l : List α) : List α :=
  l.foldl (fun acc x => insertByDesc f x acc) []

/-- An entry of the `similarities` working array in `findSimilar` /
`findSimilarById`. -/
structure SimEntry where
  id : String
  similarity : ℝ
  vector : List ℝ

/-- `findSimilar` (VectorStore.ts:106): embed the query (reading the cache;
the cache write-back is dropped, which is observationally equivalent for the
deterministic provider `E`), score every stored vector, keep those with
similarity ≥ threshold, sort descending, truncate, reconstruct items. -/
noncomputable def findSimilar (E : String → List ℝ) (st : VectorStoreState)
    (queryContent : String) (threshold : ℝ) (limit : Nat) :
    Except String (List SimilarityResult) := do
  let queryVector := (embedContent E st.embeddingCache queryContent).1
  let entries ← st.vectors.mapM (fun e => do
    let s ← calculateCosineSimilarity queryVector e.2.vector
    pure (SimEntry.mk e.1 s e.2.vector))
  let kept := entries.filter (fun e => threshold ≤ e.similarity)
  let top := (sortByDesc (fun e => e.similarity) kept).take limit
  top.mapM (fun e => do
    let item ← createContextItemFromVector st e.id
    pure (SimilarityResult.mk item e.similarity e.vector))

/-- `findSimilarById` (VectorStore.ts:144): throws `向量数据不存在` when `id`
is unstored, otherwise compares the stored vector against every *other*
stored vector. -/
noncomputable def findSimilarById (st : VectorStoreState) (id : String)
    (threshold : ℝ) (limit : Nat) : Except String (List SimilarityResult) := do
  match st.vectors.lookup id with
  | none => .error ("向量数据不存在: " ++ id)
  | some vd => do
    let entries ← (st.vectors.filter (fun e => ¬ (e.1 = id))).mapM (fun e => do
      let s ← calculateCosineSimilarity vd.vector e.2.vector
      pure (SimEntry.mk e.1 s e.2.vector))
    let kept := entries.filter (fun e => threshold ≤ e.similarity)
    let top := (sortByDesc (fun e => e.similarity) kept).take limit
    top.mapM (fun e => do
      let item ← createContextItemFromVector st e.id
      pure (SimilarityResult.mk item e.similarity e.vector))

/-- `calculateEuclideanDistance` (VectorStore.ts:419), on equal-length vectors
(all vectors compared by the source share the index dimension). -/
noncomputable def calculateEuclideanDistance (v1 v2 : List ℝ) : ℝ :=
  Real.sqrt ((v1.zipWith (fun x y => (x - y) ^ 2) v2).sum)

/-- One step of the element-wise accumulation loop of `calculateCentroid`:
`centroid[i] += vector[i]` for every index of `vector` (the accumulator always
has the full `VECTOR_DIMENSION` length, at least the vector length). -/
def addVec (acc v : List ℝ) : List ℝ := (acc.zipWith (fun a b => a + b) v) ++ acc.drop v.length

/-- `calculateCentroid` (VectorStore.ts:430): a `VECTOR_DIMENSION`-length zero
vector accumulates every member vector, then every entry is divided by the
member count; the empty list yields the zero vector. -/
noncomputable def calculateCentroid (vectors : List (List ℝ)) : List ℝ :=
  if vectors.isEmpty then List.replicate VECTOR_DIMENSION 0
  else ((vectors.foldl addVec (List.replicate VECTOR_DIMENSION 0)).map
    (fun x => x / (vectors.length : ℝ)))

/-- A working cluster of `kMeansClustering`. -/
structure KCluster where
  centroid : List ℝ
  points : List VectorData

/-- The `bestClusterIndex` loop: strict improvement over centroids in order,
starting from `bestDistance = Infinity` (modelled by `Option`). -/
noncomputable def nearestIdxAux (v : List ℝ) : List (List ℝ) → Nat → Nat × Option ℝ → Nat × Option ℝ
  | [], _, best => best
  | c :: cs, i, best =>
    let d := calculateEuclideanDistance v c
    match best.2 with
    | none => nearestIdxAux v cs (i + 1) (i, some d)
    | some bd =>
      if d < bd then nearestIdxAux v cs (i + 1) (i, some d)
      else nearestIdxAux v cs (i + 1) best

/-- Index of the nearest centroid for a point (first wins on ties, index 0
when there are no centroids, as in the source). -/
noncomputable def nearestIdx (centroids : List (List ℝ)) (v : List ℝ) : Nat :=
  (nearestIdxAux v centroids 0 (0, none)).1

/-- The assignment phase of one k-means iteration: cluster `j` receives, in
original order, exactly the vectors whose nearest centroid index is `j`. -/
noncomputable def assignPoints (centroids : List (List ℝ)) (vectors : List VectorData) :
    List KCluster :=
  (enumIdx centroids).map (fun jc =>
    ⟨jc.2, vectors.filter (fun vd => nearestIdx centroids vd.vector = jc.1)⟩)

/-- The update phase for a single cluster: an empty cluster is skipped
(keeping its centroid and not affecting convergence); otherwise the centroid
is recomputed and the cluster reports whether it moved more than 0.001. -/
noncomputable def updateCluster (cl : KCluster) : KCluster × Bool :=
  if cl.points.isEmpty then (cl, false)
  else
    let nc := calculateCentroid (cl.points.map (fun p => p.vector))
    (⟨nc, cl.points⟩, calculateEuclideanDistance cl.centroid nc > 0.001)

/-- One full iteration of the `while` loop of `kMeansClustering`: assignment,
update, and convergence flag (`converged` stays true unless some non-empty
cluster moved more than epsilon). -/
noncomputable def kMeansStep (vectors : List VectorData) (centroids : List (List ℝ)) :
    List KCluster × List (List ℝ) × Bool :=
  let updated := (assignPoints centroids vectors).map updateCluster
  let clusters := updated.map (fun u => u.1)
  (clusters, clusters.map (fun c => c.centroid), ¬ updated.any (fun u => u.2))

/-- The `while (!converged && iterations < maxIterations)` loop, with the
remaining iteration budget as fuel; returns the clusters of the last executed
iteration (post-update centroids, pre-update assignment). -/
noncomputable def kMeansLoop (vectors : List VectorData) :
    Nat → List (List ℝ) → List KCluster → List KCluster
  | 0, _, clusters => clusters
  | fuel + 1, centroids, _ =>
    let step := kMeansStep vectors centroids
    if step.2.2 then step.1 else kMeansLoop vectors fuel step.2.1 step.1

/-- `kMeansClustering` (VectorStore.ts:354): `k` random existing vectors as
initial centroids (randomness as explicit `seeds`, reduced modulo the vector
count), then up to 100 assign/update rounds. -/
noncomputable def kMeansClustering (vectors : List VectorData) (k : Nat)
    (seeds : List Nat) : List KCluster :=
  let centroids := (List.range k).map (fun i =>
    ((vectors.getD ((seeds.getD i 0) % vectors.length) ⟨"", [], [], 0⟩).vector))
  kMeansLoop vectors 100 centroids []

/-- `calculateClusterCoherence` (VectorStore.ts:451): 0 for an empty cluster,
else `max 0 (1 - average member distance to centroid)`. -/
noncomputable def calculateClusterCoherence (points : List VectorData)
    (centroid : List ℝ) : ℝ :=
  if points.isEmpty then 0
  else max 0 (1 - (points.map (fun p => calculateEuclideanDistance p.vector centroid)).sum
    / (points.length : ℝ))

/-- `performClustering` (VectorStore.ts:184): fewer stored vectors than `k`
yields one singleton cluster per vector with coherence 1.0; otherwise k-means
runs and coherence is computed per final cluster. -/
noncomputable def performClustering (st : VectorStoreState) (k : Nat)
    (seeds : List Nat) : Except String (List ClusterResult) :=
  let vectorList := st.vectors.map (fun e => e.2)
  if vectorList.length < k then
    (enumIdx vectorList).mapM (fun ivd => do
      let item ← createContextItemFromVector st ivd.2.id
      pure (ClusterResult.mk ("cluster-" ++ toString ivd.1) [item] ivd.2.vector 1))
  else
    (enumIdx (kMeansClustering vectorList k seeds)).mapM (fun icl => do
      let items ← icl.2.points.mapM (fun p => createContextItemFromVector st p.id)
      pure (ClusterResult.mk ("cluster-" ++ toString icl.1) items icl.2.centroid
        (calculateClusterCoherence icl.2.points icl.2.centroid)))

/-- `getAllIds` (VectorStore.ts:232). -/
def getAllIds (st : VectorStoreState) : List String := st.vectors.map (fun e => e.1)

/-- `getVector` (VectorStore.ts:225). -/
def getVector (st : VectorStoreState) (id : String) : Option VectorData :=
  st.vectors.lookup id

end VectorStore

/-! ## Recommendation Engine (the `RecommendationEngine` class) -/

/-- `timePreference` values. -/
inductive TimePreference
  | recent | all | historical
deriving DecidableEq

/-- `complexityPreference` values. -/
inductive ComplexityPreference
  | simple | medium | complex
deriving DecidableEq

/-- `UserPreferences`. -/
structure UserPreferences where
  preferredTypes : List String
  timePreference : TimePreference
  complexityPreference : ComplexityPreference
  topicInterests : List String
  languagePreferences : List String

/-- `WorkingContext` (only its presence is consulted by the engine). -/
structure WorkingContext where
  currentFile : Option String := none
  currentProject : Option String := none
  recentActivity : List String := []
  activeTopics : List String := []

/-- `RecommendationRequest`. -/
structure RecommendationRequest where
  query : Option String := none
  currentContext : Option (List ContextItem) := none
  userPreferences : Option UserPreferences := none
  workingContext : Option WorkingContext := none
  maxResults : Option Nat := none

/-- `ReasonType`. -/
inductive ReasonType
  | semantic_similarity | temporal_relevance | topic_match | user_preference
  | working_context | collaborative_filtering | content_based | hybrid
deriving DecidableEq

/-- `RecommendationStrategy`. -/
inductive RecommendationStrategy
  | semantic_search | collaborative_filtering | content_based | hybrid
  | contextual | temporal
deriving DecidableEq

/-- `RecommendationReason`. -/
structure RecommendationReason where
  type : ReasonType
  description : String
  weight : ℝ
  evidence : String

/-- `RelevanceFactor`. -/
structure RelevanceFactor where
  factor : String
  value : ℝ
  weight : ℝ
  description : String

/-- `RecommendedItem` (`similarity` is the optional field, set only on the
`getRelatedContent` path). -/
structure RecommendedItem where
  item : ContextItem
  score : ℝ
  reasons : List RecommendationReason
  similarity : Option ℝ
  relevanceFactors : List RelevanceFactor

/-- `RecommendationMetadata`.  `processingTime` is wall-clock duration in the
source; it carries no algorithmic content and is modelled as 0. -/
structure RecommendationMetadata where
  processingTime : ℝ
  totalCandidates : Nat
  filtersApplied : List String
  algorithmVersion : String

/-- `RecommendationResult`. -/
structure RecommendationResult where
  items : List RecommendedItem
  explanation : String
  confidence : ℝ
  strategy : RecommendationStrategy
  metadata : RecommendationMetadata

/-- `UsageRecord` (part_003:861). -/
structure UsageRecord where
  itemId : String
  viewCount : Nat
  useCount : Nat
  likeCount : Nat
  dislikeCount : Nat
  lastAccessed : ℝ
  firstAccessed : ℝ

/-- The four interaction kinds accepted by `recordUserInteraction`. -/
inductive InteractionType
  | view | use | like | dislike
deriving DecidableEq

namespace RecommendationEngine

/-- `getDefaultPreferences` (part_003:753). -/
def getDefaultPreferences : UserPreferences :=
  ⟨["code", "qa", "json"], .recent, .medium, [], ["typescript", "javascript", "python"]⟩

/-- JS truthiness of `request.currentContext && request.currentContext.length > 0`. -/
def ctxTruthy : Option (List ContextItem) → Bool
  | none => false
  | some l => decide (l.length > 0)

/-- `determineStrategy` (part_003:301).  `if (request.query)` is JS
truthiness: an absent or empty query string falls through. -/
def determineStrategy (req : RecommendationRequest) : RecommendationStrategy :=
  if strTruthy req.query then .semantic_search
  else if ctxTruthy req.currentContext then .contextual
  else if req.workingContext.isSome then .content_based
  else .hybrid

/-- Every per-field fallback `request.userPreferences?.f || this.userPreferences.f`
in the engine selects the request's preferences exactly when they are present
(each field is truthy: a non-empty enum string or an array). -/
def effPreferences (req : RecommendationRequest) (prefs : UserPreferences) : UserPreferences :=
  req.userPreferences.getD prefs

/-- `deduplicateItems` (part_003:766): keep the first occurrence of each id. -/
def dedupAux (seen : List String) : List ContextItem → List ContextItem
  | [] => []
  | x :: xs => if x.id ∈ seen then dedupAux seen xs else x :: dedupAux (x.id :: seen) xs

/-- `deduplicateItems` entry point. -/
def deduplicateItems (items : List ContextItem) : List ContextItem := dedupAux [] items

/-- The engine's own `createContextItemFromVector` (part_003:848); identical
field logic to the VectorStore one but takes the record directly. -/
def createContextItemFromVector (vd : VectorData) : ContextItem :=
  VectorStore.contextItemFromRecord vd.id vd

/-- `getCandidates` (part_003:316). -/
noncomputable def getCandidates (E : String → List ℝ) (st : VectorStoreState)
    (req : RecommendationRequest) (strategy : RecommendationStrategy) :
    Except String (List ContextItem) := do
  let candidates ← (match strategy with
    | .semantic_search =>
      if strTruthy req.query then do
        let similarItems ← VectorStore.findSimilar E st (req.query.getD "") 0.5 50
        pure (similarItems.map (fun s => s.item))
      else pure []
    | .contextual =>
      (match req.currentContext with
       | some ctx => do
         let lists ← ctx.mapM (fun c => VectorStore.findSimilarById st c.id 0.4 20)
         pure ((lists.map (fun l => l.map (fun s => s.item))).flatten)
       | none => pure [])
    | _ =>
      pure (((VectorStore.getAllIds st).take 100).filterMap
        (fun id => (VectorStore.getVector st id).map createContextItemFromVector)))
  pure (deduplicateItems candidates)

/-- `calculateTemporalScore` (part_003:421). -/
noncomputable def calculateTemporalScore (prefs : UserPreferences)
    (req : RecommendationRequest) (item : ContextItem) (now : ℝ) : ℝ :=
  let daysSinceCreation := (now - item.timestamp) / (1000 * 60 * 60 * 24)
  match (effPreferences req prefs).timePreference with
  | .recent => max 0 (1 - daysSinceCreation / 30)
  | .historical => min 1 (daysSinceCreation / 30)
  | .all => 0.5

/-- `itemText.includes(topic)`: substring containment (the empty needle is
always contained, as in JS). -/
def strIncludes (hay needle : String) : Bool :=
  if needle = "" then true else decide ((hay.splitOn needle).length > 1)

/-- `calculatePreferenceScore` (part_003:442). -/
noncomputable def calculatePreferenceScore (prefs : UserPreferences)
    (req : RecommendationRequest) (item : ContextItem) : ℝ :=
  let p := effPreferences req prefs
  let typeScore : ℝ := if item.type ∈ p.preferredTypes then 0.3 else 0
  let itemText := (item.title ++ " " ++ item.content).toLower
  let matchingTopics := p.topicInterests.filter (fun topic => strIncludes itemText topic.toLower)
  let topicScore := min 0.4 ((matchingTopics.length : ℝ) * 0.1)
  let langScore : ℝ :=
    if item.type = "code" ∧ strTruthy (item.metadata.lookup "language") then
      (if (item.metadata.lookup "language").getD "" ∈ p.languagePreferences then 0.3 else 0)
    else 0
  min 1 (typeScore + topicScore + langScore)

/-- `calculateUsageScore` (part_003:471).  Note: `totalInteractions` sums
views, uses and likes only — dislikes are not counted. -/
noncomputable def calculateUsageScore (hist : List (String × UsageRecord))
    (itemId : String) : ℝ :=
  match hist.lookup itemId with
  | none => 0
  | some usage =>
    let totalInteractions := usage.viewCount + usage.useCount + usage.likeCount
    let positiveShare := (usage.likeCount : ℝ)
      / max 1 ((usage.likeCount : ℝ) + (usage.dislikeCount : ℝ))
    let frequencyScore := min 1 ((totalInteractions : ℝ) / 10)
    frequencyScore * 0.7 + positiveShare * 0.3

/-- `calculateQualityScore` (part_003:488). -/
noncomputable def calculateQualityScore (item : ContextItem) : ℝ :=
  let lengthBonus : ℝ := if 100 < item.content.length ∧ item.content.length < 2000 then 0.2 else 0
  let previewBonus : ℝ := if item.preview ≠ "" then 0.1 else 0
  let metadataBonus : ℝ := if item.metadata.length > 0 then 0.2 else 0
  min 1 (0.5 + lengthBonus + previewBonus + metadataBonus)

/-- The `components` record built by `calculateItemScore`, with its total.
When the request has no (truthy) query the `semantic` key is absent in the
source; that is numerically identical to the 0 recorded here (it contributes
nothing to the total and generates no reason). -/
structure ScoreComponents where
  semantic : ℝ
  temporal : ℝ
  preference : ℝ
  usage : ℝ
  quality : ℝ
  total : ℝ

/-- `calculateItemScore` (part_003:387).  The semantic component re-runs
`findSimilar(query, 0, 1)` — threshold 0, limit **1** — and takes the
candidate's similarity only if the candidate is that single top result
(`?.similarity || 0`). -/
noncomputable def calculateItemScore (E : String → List ℝ) (st : VectorStoreState)
    (prefs : UserPreferences) (hist : List (String × UsageRecord))
    (req : RecommendationRequest) (now : ℝ) (item : ContextItem) :
    Except String ScoreComponents := do
  let semantic ← (if strTruthy req.query then do
      let similarItems ← VectorStore.findSimilar E st (req.query.getD "") 0 1
      let s := ((similarItems.find? (fun r => r.item.id == item.id)).map
        (fun r => r.similarity)).getD 0
      pure (s * 0.4)
    else pure (0 : ℝ))
  let temporal := calculateTemporalScore prefs req item now * 0.2
  let preference := calculatePreferenceScore prefs req item * 0.2
  let usage := calculateUsageScore hist item.id * 0.1
  let quality := calculateQualityScore item * 0.1
  pure ⟨semantic, temporal, preference, usage, quality,
    semantic + temporal + preference + usage + quality⟩

/-- `(value * 100).toFixed(1)`-style formatting (used only inside explanation
strings; modelled as round-half-up to one decimal place). -/
noncomputable def toFixed1 (x : ℝ) : String :=
  let n : Int := ⌊x * 10 + 1 / 2⌋
  toString (n / 10) ++ "." ++ toString (n % 10).natAbs

/-- `generateReasons` (part_003:513): one reason per component whose value
exceeds 0.1, in component insertion order. -/
noncomputable def generateReasons (sc : ScoreComponents) : List RecommendationReason :=
  (if sc.semantic > 0.1 then
    [⟨.semantic_similarity, "与查询内容语义相似度较高 (" ++ toFixed1 (sc.semantic * 100) ++ "%)",
      sc.semantic, "基于向量语义分析"⟩] else [])
  ++ (if sc.temporal > 0.1 then
    [⟨.temporal_relevance, "时间相关性符合偏好 (" ++ toFixed1 (sc.temporal * 100) ++ "%)",
      sc.temporal, "基于创建时间和用户偏好"⟩] else [])
  ++ (if sc.preference > 0.1 then
    [⟨.user_preference, "符合用户偏好设置 (" ++ toFixed1 (sc.preference * 100) ++ "%)",
      sc.preference, "基于用户偏好配置"⟩] else [])
  ++ (if sc.usage > 0.1 then
    [⟨.collaborative_filtering, "历史使用频率较高 (" ++ toFixed1 (sc.usage * 100) ++ "%)",
      sc.usage, "基于历史使用记录"⟩] else [])
  ++ (if sc.quality > 0.1 then
    [⟨.content_based, "内容质量评分 (" ++ toFixed1 (sc.quality * 100) ++ "%)",
      sc.quality, "基于内容分析"⟩] else [])

/-- `getTypeRelevance` (part_003:780). -/
noncomputable def getTypeRelevance (prefs : UserPreferences)
    (req : RecommendationRequest) (type : String) : ℝ :=
  if type ∈ (effPreferences req prefs).preferredTypes then 1 else 0.5

/-- `calculateFreshness` (part_003:788). -/
noncomputable def calculateFreshness (timestamp now : ℝ) : ℝ :=
  max 0 (1 - ((now - timestamp) / (1000 * 60 * 60 * 24)) / 365)

/-- JS word characters (`\w` = `[A-Za-z0-9_]`). -/
def isWordChar (c : Char) : Bool := c.isAlphanum || c = '_'

/-- Maximal word-character runs of a string (accumulator holds the current
run reversed). -/
def wordTokensAux : List Char → List Char → List String
  | [], cur => if cur.isEmpty then [] else [String.mk cur.reverse]
  | c :: cs, cur =>
    if isWordChar c then wordTokensAux cs (c :: cur)
    else if cur.isEmpty then wordTokensAux cs []
    else String.mk cur.reverse :: wordTokensAux cs []

/-- The word tokens of a string; a global regex `\bword\b` matches exactly
the tokens equal to `word`. -/
def wordTokens (s : String) : List String := wordTokensAux s.toList []

/-- Matches of the global regex `\=\>` (non-overlapping left-to-right scan). -/
def countArrows : List Char → Nat
  | [] => 0
  | '=' :: '>' :: rest => countArrows rest + 1
  | _ :: rest => countArrows rest

/-- The `{` character (written via its code point). -/
def lbraceChar : Char := Char.ofNat 0x7b

/-- `calculateCodeComplexity` (part_003:816): capped contributions from
control-structure keywords, function definitions (`function` keyword or `=>`),
and opening-brace count. -/
noncomputable def calculateCodeComplexity (code : String) : ℝ :=
  let controlStructures := (wordTokens code).countP
    (fun t => t ∈ ["if", "for", "while", "switch", "try"])
  let functions := (wordTokens code).countP (fun t => t == "function") + countArrows code.toList
  let braces := code.toList.countP (fun c => c == lbraceChar)
  min 1 (min 0.5 ((controlStructures : ℝ) / 10) + min 0.3 ((functions : ℝ) / 5)
    + min 0.2 ((braces : ℝ) / 20))

/-- `calculateComplexity` (part_003:797). -/
noncomputable def calculateComplexity (item : ContextItem) : ℝ :=
  let base := min 0.4 ((item.content.length : ℝ) / 5000)
  min 1 (if item.type = "code" then base + calculateCodeComplexity item.content * 0.6 else base)

/-- `calculateRelevanceFactors` (part_003:578). -/
noncomputable def calculateRelevanceFactors (prefs : UserPreferences)
    (req : RecommendationRequest) (item : ContextItem) (now : ℝ) : List RelevanceFactor :=
  [⟨"content_type", getTypeRelevance prefs req item.type, 0.2, "内容类型: " ++ item.type⟩,
   ⟨"freshness", calculateFreshness item.timestamp now, 0.15,
     "内容新鲜度: " ++ toFixed1 (calculateFreshness item.timestamp now * 100) ++ "%"⟩,
   ⟨"complexity", calculateComplexity item, 0.1,
     "内容复杂度: " ++ (if calculateComplexity item > 0.7 then "高"
       else if calculateComplexity item > 0.4 then "中" else "低")⟩]

/-- `scoreItems` (part_003:361); the `strategy` argument of the source is
threaded to `generateReasons` but never read there. -/
noncomputable def scoreItems (E : String → List ℝ) (st : VectorStoreState)
    (prefs : UserPreferences) (hist : List (String × UsageRecord))
    (req : RecommendationRequest) (now : ℝ) (candidates : List ContextItem) :
    Except String (List RecommendedItem) :=
  candidates.mapM (fun candidate => do
    let score ← calculateItemScore E st prefs hist req now candidate
    pure (RecommendedItem.mk candidate score.total (generateReasons score) none
      (calculateRelevanceFactors prefs req candidate now)))

/-- `applyFilters` (part_003:613): minimum-score filter, then the
preferred-type filter with its score > 0.7 bypass, then the strict complexity
filter when the effective complexity preference is not `medium`. -/
noncomputable def applyFilters (items : List RecommendedItem)
    (req : RecommendationRequest) (prefs : UserPreferences) : List RecommendedItem :=
  let filtered1 := items.filter (fun it => decide (it.score > 0.1))
  let preferredTypes := (effPreferences req prefs).preferredTypes
  let filtered2 := if preferredTypes.length > 0 then
      filtered1.filter (fun it => decide (it.item.type ∈ preferredTypes ∨ it.score > 0.7))
    else filtered1
  let complexityPref := (effPreferences req prefs).complexityPreference
  if complexityPref ≠ .medium then
    filtered2.filter (fun it => match complexityPref with
      | .simple => decide (calculateComplexity it.item < 0.5)
      | .complex => decide (calculateComplexity it.item > 0.6)
      | .medium => true)
  else filtered2

/-- `sortByScore` (part_003:649): stable descending sort by total score. -/
noncomputable def sortByScore (items : List RecommendedItem) : List RecommendedItem :=
  VectorStore.sortByDesc (fun it => it.score) items

/-- The strategy names used in explanations (part_003:665). -/
def strategyDescription : RecommendationStrategy → String
  | .semantic_search => "基于语义相似度"
  | .contextual => "基于当前上下文"
  | .content_based => "基于内容特征"
  | .collaborative_filtering => "基于协同过滤"
  | .hybrid => "基于混合算法"
  | .temporal => "基于时间相关性"

/-- `generateExplanation` (part_003:656). -/
noncomputable def generateExplanation (items : List RecommendedItem)
    (strategy : RecommendationStrategy) : String :=
  if items.isEmpty then "未找到符合条件的推荐内容"
  else
    let avgScore := (items.map (fun it => it.score)).sum / (items.length : ℝ)
    let topReasons := ((items.head?.map (fun it => it.reasons)).getD []).take 2
    let base := strategyDescription strategy ++ "找到 " ++ toString items.length
      ++ " 个推荐内容，平均相关度 " ++ toFixed1 (avgScore * 100) ++ "%。"
    if topReasons.isEmpty then base
    else base ++ " 主要推荐原因：" ++ String.intercalate "，"
      (topReasons.map (fun r => r.description)) ++ "。"

/-- `calculateVariance` (part_003:837): population variance. -/
noncomputable def calculateVariance (values : List ℝ) : ℝ :=
  if values.isEmpty then 0
  else
    let mean := values.sum / (values.length : ℝ)
    ((values.map (fun v => (v - mean) ^ 2)).sum) / (values.length : ℝ)

/-- `calculateOverallConfidence` (part_003:690): 0 on an empty list, else
`0.7 * mean + 0.3 * max 0 (1 - variance)`. -/
noncomputable def calculateOverallConfidence (items : List RecommendedItem) : ℝ :=
  if items.isEmpty then 0
  else
    let scores := items.map (fun it => it.score)
    let avgScore := scores.sum / (items.length : ℝ)
    avgScore * 0.7 + max 0 (1 - calculateVariance scores) * 0.3

/-- `getAppliedFilters` (part_003:706); note the `?.` chain: an absent
`userPreferences` still records the complexity filter (undefined ≠ 'medium'). -/
def getAppliedFilters (req : RecommendationRequest) : List String :=
  ["min_score"]
  ++ (match req.userPreferences with
      | some p => if p.preferredTypes.length > 0 then ["content_type"] else []
      | none => [])
  ++ (match req.userPreferences with
      | some p => if p.complexityPreference ≠ .medium then ["complexity"] else []
      | none => ["complexity"])

/-- `getFallbackRecommendation` (part_003:723): a constant degraded result;
the request argument is not consulted. -/
def getFallbackRecommendation (_req : RecommendationRequest) : RecommendationResult :=
  { items := []
    explanation := "推荐系统暂时不可用，请稍后重试"
    confidence := 0
    strategy := .hybrid
    metadata := ⟨0, 0, [], "1.0.0"⟩ }

/-- The body of `recommend` inside its `try` block (part_003:100-144). -/
noncomputable def recommendCore (E : String → List ℝ) (st : VectorStoreState)
    (prefs : UserPreferences) (hist : List (String × UsageRecord))
    (req : RecommendationRequest) (now : ℝ) : Except String RecommendationResult := do
  let strategy := determineStrategy req
  let candidates ← getCandidates E st req strategy
  let scoredItems ← scoreItems E st prefs hist req now candidates
  let filteredItems := applyFilters scoredItems req prefs
  let sortedItems := sortByScore filteredItems
  let maxResults := natTruthyGetD req.maxResults 10
  let finalItems := sortedItems.take maxResults
  pure { items := finalItems
         explanation := generateExplanation finalItems strategy
         confidence := calculateOverallConfidence finalItems
         strategy := strategy
         metadata := ⟨0, candidates.length, getAppliedFilters req, "1.0.0"⟩ }

/-- `recommend` (part_003:100): any exception from the body is caught and
replaced by the fallback result — the caller never sees an exception. -/
noncomputable def recommend (E : String → List ℝ) (st : VectorStoreState)
    (prefs : UserPreferences) (hist : List (String × UsageRecord))
    (req : RecommendationRequest) (now : ℝ) : RecommendationResult :=
  match recommendCore E st prefs hist req now with
  | .ok result => result
  | .error _ => getFallbackRecommendation req

/-- The body of `getRelatedContent` inside its `try` block (part_003:180-212). -/
noncomputable def getRelatedContentCore (st : VectorStoreState) (itemId : String)
    (maxResults : Nat) : Except String RecommendationResult := do
  let similarItems ← VectorStore.findSimilarById st itemId 0.6 maxResults
  let recommendedItems := similarItems.map (fun sim =>
    RecommendedItem.mk sim.item sim.similarity
      [⟨.semantic_similarity, "与当前内容的语义相似度为 " ++ toFixed1 (sim.similarity * 100) ++ "%",
        1, "基于向量相似度计算"⟩]
      (some sim.similarity)
      [⟨"semantic_similarity", sim.similarity, 1, "语义相似度"⟩])
  pure { items := recommendedItems
         explanation := "基于语义相似度找到 " ++ toString recommendedItems.length ++ " 个相关内容"
         confidence := calculateOverallConfidence recommendedItems
         strategy := .semantic_search
         metadata := ⟨0, similarItems.length, ["similarity_threshold"], "1.0.0"⟩ }

/-- `getRelatedContent` (part_003:179): the catch block swallows every error
(including the NotFound thrown by `findSimilarById`) and returns the fallback
result. -/
noncomputable def getRelatedContent (st : VectorStoreState) (itemId : String)
    (maxResults : Nat) : RecommendationResult :=
  match getRelatedContentCore st itemId maxResults with
  | .ok r => r
  | .error _ => getFallbackRecommendation { maxResults := some maxResults }

/-- `recordUserInteraction` (part_003:233): create the record lazily (both
timestamps set to now), bump exactly the counter for the interaction type,
refresh `lastAccessed`, store back. -/
def recordUserInteraction (hist : List (String × UsageRecord)) (itemId : String)
    (t : InteractionType) (now : ℝ) : List (String × UsageRecord) :=
  let existing := (hist.lookup itemId).getD ⟨itemId, 0, 0, 0, 0, now, now⟩
  let bumped := match t with
    | .view => { existing with viewCount := existing.viewCount + 1 }
    | .use => { existing with useCount := existing.useCount + 1 }
    | .like => { existing with likeCount := existing.likeCount + 1 }
    | .dislike => { existing with dislikeCount := existing.dislikeCount + 1 }
  setKV itemId { bumped with lastAccessed := now } hist

end RecommendationEngine

/-! ## Spec-modelled comparison definitions -/

/-- Modelled from claim C5's words, for comparison with `calculateUsageScore`:
the same blend, but with `total_interactions` counting ALL recorded
interactions on the item (views + uses + likes + dislikes). -/
noncomputable def claimTotalUsageScore (hist : List (String × UsageRecord))
    (itemId : String) : ℝ :=
  match hist.lookup itemId with
  | none => 0
  | some u =>
    0.7 * min 1 (((u.viewCount + u.useCount + u.likeCount + u.dislikeCount : Nat) : ℝ) / 10)
    + 0.3 * ((u.likeCount : ℝ) / max 1 ((u.likeCount : ℝ) + (u.dislikeCount : ℝ)))

/-- 1 when the recorded interaction type matches `a`, else 0 (used to state
the per-counter effect of `recordUserInteraction`). -/
def interactionBump (a t : InteractionType) : Nat := if t = a then 1 else 0

/-! ## Concrete instances used by counterexamples and witnesses -/

/-- A context item for the C6 counterexample. -/
def c6Item : ContextItem := ⟨"c6", "text", "t", "", "", 0, []⟩

/-- A request whose query is present but empty (JS-falsy) while a non-empty
current context is also present. -/
def c6Request : RecommendationRequest :=
  { query := some "", currentContext := some [c6Item] }

/-- A context item whose id is not stored anywhere (C4 witness). -/
def c4Item : ContextItem := ⟨"c4", "text", "t", "", "", 0, []⟩

/-- A contextual request referring to an unstored item (C4 witness). -/
def c4Request : RecommendationRequest := { currentContext := some [c4Item] }

/-- Preferences selecting the `simple` complexity preference (C7 witness). -/
def c7Prefs : UserPreferences := ⟨[], .all, .simple, [], []⟩

/-- A request carrying the `simple` complexity preference (C7 witness). -/
def c7Request : RecommendationRequest := { userPreferences := some c7Prefs }

/-- A deterministic embedding provider mapping every text to `[1]` (C2). -/
def c2E : String → List ℝ := fun _ => [1]

/-- Stored record `A` with vector `[1]` (C2). -/
def c2RecordA : VectorData := ⟨"A", [1], [], 0⟩

/-- Stored record `B` with the same vector `[1]` (C2). -/
def c2RecordB : VectorData := ⟨"B", [1], [], 0⟩

/-- A store with two records of identical vectors (C2 counterexample). -/
def c2Store : VectorStoreState := ⟨[("A", c2RecordA), ("B", c2RecordB)], []⟩

/-- A store with the single record `A` (C2 witness). -/
def c2wStore : VectorStoreState := ⟨[("A", c2RecordA)], []⟩

/-- Neutral preferences: `all` time preference, nothing else set (C2). -/
def c2Prefs : UserPreferences := ⟨[], .all, .medium, [], []⟩

/-- A request with query `"q"` and the neutral preferences (C2). -/
def c2Request : RecommendationRequest :=
  { query := some "q", userPreferences := some c2Prefs }

/-- The context item reconstructed for record `A` (empty metadata defaults). -/
def c2ItemA : ContextItem := ⟨"A", "text", "未知标题", "", "", 0, []⟩

/-- The context item reconstructed for record `B`. -/
def c2ItemB : ContextItem := ⟨"B", "text", "未知标题", "", "", 0, []⟩

/-- The zero vector of the index dimension (C1). -/
def zVec : List ℝ := List.replicate VECTOR_DIMENSION 0

/-- Stored record `a` holding the zero vector (C1 counterexample). -/
def c1RecordA : VectorData := ⟨"a", zVec, [], 0⟩

/-- Stored record `b` holding the same zero vector (C1 counterexample). -/
def c1RecordB : VectorData := ⟨"b", zVec, [], 0⟩

/-- A store with exactly two records carrying equal vectors (C1). -/
def c1Store : VectorStoreState := ⟨[("a", c1RecordA), ("b", c1RecordB)], []⟩

/-- The context item reconstructed for record `a`. -/
def c1ItemA : ContextItem := ⟨"a", "text", "未知标题", "", "", 0, []⟩

/-- The context item reconstructed for record `b`. -/
def c1ItemB : ContextItem := ⟨"b", "text", "未知标题", "", "", 0, []⟩

/-- Usage history with a single record holding one dislike and nothing else
(C5 counterexample). -/
def c5DislikeHist : List (String × UsageRecord) := [("d", ⟨"d", 0, 0, 0, 1, 0, 0⟩)]

/-- Usage history with a mixed record (C5 witness). -/
def c5WitnessHist : List (String × UsageRecord) := [("a", ⟨"a", 2, 0, 1, 1, 0, 0⟩)]

/-- An existing usage record for id `a` (C10 witness). -/
def c10RecA : UsageRecord := ⟨"a", 2, 3, 4, 5, 6, 7⟩

/-- An existing usage record for id `b` (C10 witness). -/
def c10RecB : UsageRecord := ⟨"b", 1, 1, 1, 1, 1, 1⟩

/-- Usage history with the two records above (C10 witness). -/
def c10Hist : List (String × UsageRecord) := [("a", c10RecA), ("b", c10RecB)]

/-- A request with a non-empty query (C6 witness). -/
def c6wA : RecommendationRequest := { query := some "x" }

/-- A request with only a non-empty current context (C6 witness). -/
def c6wB : RecommendationRequest := { currentContext := some [c6Item] }

/-- A request with only a working context (C6 witness). -/
def c6wC : RecommendationRequest := { workingContext := some {} }

/-- An empty request (C6 witness). -/
def c6wD : RecommendationRequest := {}

/-! ## Helper lemmas -/

theorem except_bind_ok {α β : Type} (a : α) (f : α → Except String β) :
    (Except.ok a >>= f) = f a := rfl

theorem except_bind_error {α β : Type} (e : String) (f : α → Except String β) :
    ((Except.error e : Except String α) >>= f) = .error e := rfl

theorem except_pure_eq_ok {α : Type} (a : α) : (pure a : Except String α) = .ok a := rfl

theorem except_map_ok {α β : Type} (f : α → β) (a : α) :
    (f <$> (.ok a : Except String α)) = .ok (f a) := rfl

theorem except_map_error {α β : Type} (f : α → β) (e : String) :
    (f <$> (.error e : Except String α)) = .error e := rfl

theorem except_mapM_loop_nil {α β : Type} (f : α → Except String β) (acc : List β) :
    List.mapM.loop f [] acc = .ok acc.reverse := rfl

theorem except_mapM_loop_cons {α β : Type} (f : α → Except String β) (a : α)
    (as : List α) (acc : List β) :
    List.mapM.loop f (a :: as) acc = f a >>= fun b => List.mapM.loop f as (b :: acc) := rfl

theorem lookup_setKV_self {β : Type} (k : String) (v : β) (l : List (String × β)) :
    (setKV k v l).lookup k = some v := by
  induction l with
  | nil => simp [setKV, List.lookup]
  | cons e rest ih =>
    by_cases h : e.1 = k
    · simp [setKV, h, List.lookup]
    · simp only [setKV, if_neg h]
      have hne : (k == e.1) = false := beq_eq_false_iff_ne.2 (fun hh => h hh.symm)
      simp [List.lookup, hne, ih]

theorem lookup_setKV_ne {β : Type} (k j : String) (v : β) (l : List (String × β))
    (h : j ≠ k) : (setKV k v l).lookup j = l.lookup j := by
  induction l with
  | nil => simp [setKV, List.lookup, beq_eq_false_iff_ne.2 h]
  | cons e rest ih =>
    by_cases he : e.1 = k
    · simp only [setKV, if_pos he, List.lookup]
      rw [beq_eq_false_iff_ne.2 h, beq_eq_false_iff_ne.2 (he ▸ h)]
    · simp only [setKV, if_neg he, List.lookup]
      cases hb : (j == e.1) <;> simp [ih]

theorem mem_keys_setKV {β : Type} (k j : String) (v : β) (l : List (String × β)) :
    j ∈ (setKV k v l).map Prod.fst ↔ j = k ∨ j ∈ l.map Prod.fst := by
  induction l with
  | nil => simp [setKV]
  | cons e rest ih =>
    by_cases he : e.1 = k
    · simp [setKV, he] <;> tauto
    · simp [setKV, he, ih] <;> tauto

theorem nodup_keys_setKV {β : Type} (k : String) (v : β) (l : List (String × β))
    (h : (l.map Prod.fst).Nodup) : ((setKV k v l).map Prod.fst).Nodup := by
  induction l with
  | nil => simp [setKV]
  | cons e rest ih =>
    simp only [List.map_cons, List.nodup_cons] at h
    by_cases he : e.1 = k
    · simp only [setKV, if_pos he, List.map_cons, List.nodup_cons]
      exact ⟨he ▸ h.1, h.2⟩
    · simp only [setKV, if_neg he, List.map_cons, List.nodup_cons]
      refine ⟨fun hm => ?_, ih h.2⟩
      rcases (mem_keys_setKV k e.1 v rest).1 hm with h1 | h1
      · exact he h1
      · exact h.1 h1

theorem countP_keys_eq_zero {β : Type} (k : String) (l : List (String × β))
    (h : k ∉ l.map Prod.fst) : l.countP (fun e => e.1 == k) = 0 := by
  rw [List.countP_eq_zero]
  intro e he hb
  exact h (List.mem_map.2 ⟨e, he, (beq_iff_eq.1 hb)⟩)

theorem countP_setKV_self {β : Type} (k : String) (v : β) (l : List (String × β))
    (h : (l.map Prod.fst).Nodup) : (setKV k v l).countP (fun e => e.1 == k) = 1 := by
  induction l with
  | nil => simp [setKV]
  | cons e rest ih =>
    simp only [List.map_cons, List.nodup_cons] at h
    by_cases he : e.1 = k
    · simp only [setKV, if_pos he, List.countP_cons]
      rw [countP_keys_eq_zero k rest (he ▸ h.1)]
      simp
    · simp only [setKV, if_neg he, List.countP_cons, ih h.2]
      simp [beq_eq_false_iff_ne.2 he]

theorem lookup_of_mem_of_nodup {β : Type} (l : List (String × β)) (k : String) (v : β)
    (hn : (l.map Prod.fst).Nodup) (hm : (k, v) ∈ l) : l.lookup k = some v := by
  induction l with
  | nil => simp at hm
  | cons e rest ih =>
    simp only [List.map_cons, List.nodup_cons] at hn
    rcases List.mem_cons.1 hm with h | h
    · subst h
      simp [List.lookup]
    · have hk : e.1 ≠ k := by
        intro hh
        exact hn.1 (hh ▸ List.mem_map.2 ⟨(k, v), h, rfl⟩)
      have : (k == e.1) = false := beq_eq_false_iff_ne.2 (fun hh => hk hh.symm)
      simp [List.lookup, this, ih hn.2 h]

theorem mapM_ok_of_forall {α β : Type} (f : α → Except String β) (g : α → β)
    (l : List α) (h : ∀ x ∈ l, f x = .ok (g x)) : l.mapM f = .ok (l.map g) := by
  induction l with
  | nil => rfl
  | cons a as ih =>
    rw [List.mapM_cons, h a (List.mem_cons_self a as),
      ih (fun x hx => h x (List.mem_cons_of_mem a hx))]
    rfl

theorem mem_of_mem_enumIdxFrom {α : Type} (l : List α) (n : Nat) (p : Nat × α)
    (h : p ∈ enumIdxFrom n l) : p.2 ∈ l := by
  induction l generalizing n with
  | nil => simp [enumIdxFrom] at h
  | cons a as ih =>
    rcases List.mem_cons.1 h with h1 | h1
    · subst h1
      exact List.mem_cons_self a as
    · exact List.mem_cons_of_mem a (ih (n + 1) h1)

theorem mem_insertByDesc {α : Type} (f : α → ℝ) (x y : α) (l : List α) :
    y ∈ VectorStore.insertByDesc f x l ↔ y = x ∨ y ∈ l := by
  induction l with
  | nil => simp [VectorStore.insertByDesc]
  | cons a as ih =>
    by_cases h : f x ≤ f a
    · simp [VectorStore.insertByDesc, if_pos h, ih] <;> tauto
    · simp [VectorStore.insertByDesc, if_neg h] <;> tauto

theorem mem_sortByDesc_aux {α : Type} (f : α → ℝ) (l acc : List α) (y : α) :
    y ∈ l.foldl (fun acc x => VectorStore.insertByDesc f x acc) acc ↔ y ∈ acc ∨ y ∈ l := by
  induction l generalizing acc with
  | nil => simp
  | cons a as ih =>
    simp only [List.foldl_cons, ih, mem_insertByDesc, List.mem_cons]
    tauto

theorem mem_sortByDesc {α : Type} (f : α → ℝ) (l : List α) (y : α) :
    y ∈ VectorStore.sortByDesc f l ↔ y ∈ l := by
  rw [VectorStore.sortByDesc, mem_sortByDesc_aux]
  simp

theorem dotProd_comm (a b : List ℝ) : VectorStore.dotProd a b = VectorStore.dotProd b a := by
  rw [VectorStore.dotProd, VectorStore.dotProd, List.zipWith_comm_of_comm]
  intro x y
  exact mul_comm x y

theorem dotProd_self_nonneg (v : List ℝ) : 0 ≤ VectorStore.dotProd v v := by
  rw [VectorStore.dotProd, List.zipWith_same]
  exact List.sum_nonneg (by
    intro x hx
    rcases List.mem_map.1 hx with ⟨a, _, rfl⟩
    exact mul_self_nonneg a)

/-! ## C6: strategy selection -/

/-- C6 counterexample: a request whose query is *present* (the empty string,
which is JS-falsy) together with a non-empty current context is routed to
`contextual`, not `semantic_search`, refuting "if a query is present the
strategy is semantic_search". -/
theorem claim_C6_counterexample :
    c6Request.query.isSome = true ∧
    RecommendationEngine.determineStrategy c6Request = .contextual ∧
    RecommendationEngine.determineStrategy c6Request ≠ .semantic_search := by
  refine ⟨rfl, rfl, ?_⟩
  decide

/-- C6 (amended): strategy selection is a pure priority-ordered function of
the request, with "a query is present" corrected to "a non-empty query is
present": non-empty query ⇒ semantic_search; else present non-empty
current-context ⇒ contextual; else present working context ⇒ content_based;
else hybrid — first matching condition wins. -/
theorem claim_C6_amended (req : RecommendationRequest) :
    (∀ q, req.query = some q → q ≠ "" →
      RecommendationEngine.determineStrategy req = .semantic_search) ∧
    ((∀ q, req.query = some q → q = "") →
      ∀ l, req.currentContext = some l → l ≠ [] →
        RecommendationEngine.determineStrategy req = .contextual) ∧
    ((∀ q, req.query = some q → q = "") →
      (∀ l, req.currentContext = some l → l = []) →
      ∀ w, req.workingContext = some w →
        RecommendationEngine.determineStrategy req = .content_based) ∧
    ((∀ q, req.query = some q → q = "") →
      (∀ l, req.currentContext = some l → l = []) →
      req.workingContext = none →
      RecommendationEngine.determineStrategy req = .hybrid) := by
  refine ⟨?_, ?_, ?_, ?_⟩
  · intro q1 hq hne
    simp [RecommendationEngine.determineStrategy, hq, strTruthy, hne]
  · intro hq l hl hne
    have hqf : strTruthy req.query = false := by
      cases hqq : req.query with
      | none => rfl
      | some s => simp [strTruthy, hq s hqq]
    have hct : RecommendationEngine.ctxTruthy req.currentContext = true := by
      simp [RecommendationEngine.ctxTruthy, hl, List.length_pos, hne]
    simp [RecommendationEngine.determineStrategy, hqf, hct]
  · intro hq hc w hw
    have hqf : strTruthy req.query = false := by
      cases hqq : req.query with
      | none => rfl
      | some s => simp [strTruthy, hq s hqq]
    have hct : RecommendationEngine.ctxTruthy req.currentContext = false := by
      cases hcc : req.currentContext with
      | none => rfl
      | some l => simp [RecommendationEngine.ctxTruthy, hc l hcc]
    simp [RecommendationEngine.determineStrategy, hqf, hct, hw]
  · intro hq hc hw
    have hqf : strTruthy req.query = false := by
      cases hqq : req.query with
      | none => rfl
      | some s => simp [strTruthy, hq s hqq]
    have hct : RecommendationEngine.ctxTruthy req.currentContext = false := by
      cases hcc : req.currentContext with
      | none => rfl
      | some l => simp [RecommendationEngine.ctxTruthy, hc l hcc]
    simp [RecommendationEngine.determineStrategy, hqf, hct, hw]

/-- C6 witness: the amended theorem applied to four concrete requests, one
per branch. -/
theorem claim_C6_witness :
    RecommendationEngine.determineStrategy c6wA = .semantic_search ∧
    RecommendationEngine.determineStrategy c6wB = .contextual ∧
    RecommendationEngine.determineStrategy c6wC = .content_based ∧
    RecommendationEngine.determineStrategy c6wD = .hybrid := by
  refine ⟨(claim_C6_amended c6wA).1 "x" rfl (by decide), ?_, ?_, ?_⟩
  · exact (claim_C6_amended c6wB).2.1 (by intro q h; cases h) [c6Item] rfl (by simp)
  · exact (claim_C6_amended c6wC).2.2.1 (by intro q h; cases h) (by intro l h; cases h) {} rfl
  · exact (claim_C6_amended c6wD).2.2.2 (by intro q h; cases h) (by intro l h; cases h) rfl

/-! ## C3: NotFound handling -/

/-- C3 counterexample: for an unstored id, `getRelatedContent` does **not**
surface the NotFound failure — it returns the normal-shaped fallback result
(empty items, confidence 0), because its catch block swallows the error. -/
theorem claim_C3_counterexample :
    emptyVectorStore.vectors.lookup "missing" = none ∧
    RecommendationEngine.getRelatedContent emptyVectorStore "missing" 5 =
      RecommendationEngine.getFallbackRecommendation { maxResults := some 5 } ∧
    (RecommendationEngine.getRelatedContent emptyVectorStore "missing" 5).items = [] ∧
    (RecommendationEngine.getRelatedContent emptyVectorStore "missing" 5).confidence = 0 := by
  refine ⟨rfl, rfl, rfl, rfl⟩

/-- C3 (amended): `findSimilarById` does fail with the NotFound condition for
an unstored id, but `getRelatedContent` catches that failure and returns the
fallback result (empty item list) instead of surfacing it to its caller. -/
theorem claim_C3_amended (st : VectorStoreState) (id : String) (threshold : ℝ)
    (limit maxResults : Nat) (h : st.vectors.lookup id = none) :
    VectorStore.findSimilarById st id threshold limit = .error ("向量数据不存在: " ++ id) ∧
    RecommendationEngine.getRelatedContent st id maxResults =
      RecommendationEngine.getFallbackRecommendation { maxResults := some maxResults } ∧
    (RecommendationEngine.getRelatedContent st id maxResults).items = [] := by
  have hf : VectorStore.findSimilarById st id threshold limit = .error ("向量数据不存在: " ++ id) := by
    rw [VectorStore.findSimilarById, h]
  have hf6 : VectorStore.findSimilarById st id 0.6 maxResults = .error ("向量数据不存在: " ++ id) := by
    rw [VectorStore.findSimilarById, h]
  have hcore : RecommendationEngine.getRelatedContentCore st id maxResults =
      .error ("向量数据不存在: " ++ id) := by
    rw [RecommendationEngine.getRelatedContentCore, hf6]
    rfl
  have hrel : RecommendationEngine.getRelatedContent st id maxResults =
      RecommendationEngine.getFallbackRecommendation { maxResults := some maxResults } := by
    rw [RecommendationEngine.getRelatedContent, hcore]
  exact ⟨hf, hrel, by rw [hrel]; rfl⟩

/-- C3 witness: the amended theorem applied to the empty store and the id
`"missing"`. -/
theorem claim_C3_witness :
    VectorStore.findSimilarById emptyVectorStore "missing" 0.5 7 =
      .error ("向量数据不存在: " ++ "missing") ∧
    RecommendationEngine.getRelatedContent emptyVectorStore "missing" 7 =
      RecommendationEngine.getFallbackRecommendation { maxResults := some 7 } ∧
    (RecommendationEngine.getRelatedContent emptyVectorStore "missing" 7).items = [] :=
  claim_C3_amended emptyVectorStore "missing" 0.5 7 7 rfl

/-! ## C10: recordUserInteraction frame effect -/

/-- C10: `recordUserInteraction` bumps exactly the counter of the recorded
interaction type by 1 (relative to the existing record, or to a fresh
zero-count record when none exists), sets `lastAccessed` to now, keeps
`firstAccessed` of an existing record, and leaves every other id's record
untouched. -/
theorem claim_C10_record_interaction (hist : List (String × UsageRecord))
    (id : String) (t : InteractionType) (now : ℝ) :
    ∃ r : UsageRecord,
      (RecommendationEngine.recordUserInteraction hist id t now).lookup id = some r ∧
      r.viewCount = ((hist.lookup id).getD ⟨id, 0, 0, 0, 0, now, now⟩).viewCount
        + interactionBump .view t ∧
      r.useCount = ((hist.lookup id).getD ⟨id, 0, 0, 0, 0, now, now⟩).useCount
        + interactionBump .use t ∧
      r.likeCount = ((hist.lookup id).getD ⟨id, 0, 0, 0, 0, now, now⟩).likeCount
        + interactionBump .like t ∧
      r.dislikeCount = ((hist.lookup id).getD ⟨id, 0, 0, 0, 0, now, now⟩).dislikeCount
        + interactionBump .dislike t ∧
      r.lastAccessed = now ∧
      (∀ o, hist.lookup id = some o → r.firstAccessed = o.firstAccessed) ∧
      (∀ j, j ≠ id →
        (RecommendationEngine.recordUserInteraction hist id t now).lookup j = hist.lookup j) := by
  simp only [RecommendationEngine.recordUserInteraction]
  cases t <;>
    refine ⟨_, lookup_setKV_self id _ hist, by simp [interactionBump],
      by simp [interactionBump], by simp [interactionBump], by simp [interactionBump],
      rfl, fun o ho => by simp [ho], fun j hj => lookup_setKV_ne id j _ hist hj⟩

/-- C10 witness: recording a `like` on an id with an existing record bumps
only the like counter, keeps `firstAccessed`, and leaves the record of the
other id untouched. -/
theorem claim_C10_witness :
    ∃ r : UsageRecord,
      (RecommendationEngine.recordUserInteraction c10Hist "a" .like 9).lookup "a" = some r ∧
      r.viewCount = 2 ∧ r.useCount = 3 ∧ r.likeCount = 5 ∧ r.dislikeCount = 5 ∧
      r.lastAccessed = 9 ∧ r.firstAccessed = c10RecA.firstAccessed ∧
      (RecommendationEngine.recordUserInteraction c10Hist "a" .like 9).lookup "b" =
        c10Hist.lookup "b" := by
  obtain ⟨r, h1, h2, h3, h4, h5, h6, h7, h8⟩ :=
    claim_C10_record_interaction c10Hist "a" .like 9
  exact ⟨r, h1, by rw [h2]; rfl, by rw [h3]; rfl, by rw [h4]; rfl, by rw [h5]; rfl,
    h6, h7 c10RecA rfl, h8 "b" (by decide)⟩

/-! ## C9: one record per id -/

/-- C9: storing the same id twice (with different contents) leaves exactly
one Vector Record for that id, and that record is the one built by the second
write: the second content's 500-character summary and length in the metadata,
the second timestamp, and the vector produced by embedding the second content
against the cache as left by the first write. -/
theorem claim_C9_overwrite (E : String → List ℝ) (st : VectorStoreState)
    (id c1 c2 : String) (m1 m2 : List (String × String)) (t1 t2 : ℝ)
    (hn : (st.vectors.map Prod.fst).Nodup) (hne : c1 ≠ c2) :
    ((VectorStore.storeVector E (VectorStore.storeVector E st id c1 m1 t1) id c2 m2 t2).vectors.countP
      (fun e => e.1 == id) = 1) ∧
    (VectorStore.storeVector E (VectorStore.storeVector E st id c1 m1 t1) id c2 m2 t2).vectors.lookup id
      = some ⟨id,
          (VectorStore.embedContent E
            (VectorStore.storeVector E st id c1 m1 t1).embeddingCache c2).1,
          setKV "contentLength" (toString c2.length) (setKV "content" (c2.take 500) m2),
          t2⟩ := by
  constructor
  · have h1 : ((VectorStore.storeVector E st id c1 m1 t1).vectors.map Prod.fst).Nodup := by
      simp only [VectorStore.storeVector]
      exact nodup_keys_setKV id _ st.vectors hn
    simp only [VectorStore.storeVector]
    exact countP_setKV_self id _ _ (by simpa [VectorStore.storeVector] using h1)
  · simp only [VectorStore.storeVector]
    exact lookup_setKV_self id _ _

/-- C9 witness: the theorem applied to the empty store with contents
`"one"` then `"two"`. -/
theorem claim_C9_witness :
    ((VectorStore.storeVector c2E (VectorStore.storeVector c2E emptyVectorStore "x" "one" [] 0)
        "x" "two" [] 1).vectors.countP (fun e => e.1 == "x") = 1) ∧
    (VectorStore.storeVector c2E (VectorStore.storeVector c2E emptyVectorStore "x" "one" [] 0)
        "x" "two" [] 1).vectors.lookup "x"
      = some ⟨"x",
          (VectorStore.embedContent c2E
            (VectorStore.storeVector c2E emptyVectorStore "x" "one" [] 0).embeddingCache "two").1,
          setKV "contentLength" (toString "two".length) (setKV "content" ("two".take 500) []),
          1⟩ :=
  claim_C9_overwrite c2E emptyVectorStore "x" "one" "two" [] [] 0 1 List.nodup_nil
    (by decide)

/-! ## C5: usage score -/

/-- C5 counterexample: on a record with one dislike and nothing else the code
scores 0 (its `totalInteractions` counts views + uses + likes only), while
the claim's formula — with `total_interactions` counting all interactions —
gives 0.07. -/
theorem claim_C5_counterexample :
    RecommendationEngine.calculateUsageScore c5DislikeHist "d" = 0 ∧
    claimTotalUsageScore c5DislikeHist "d" = 7 / 100 ∧
    RecommendationEngine.calculateUsageScore c5DislikeHist "d"
      ≠ claimTotalUsageScore c5DislikeHist "d" := by
  have hl : c5DislikeHist.lookup "d" = some ⟨"d", 0, 0, 0, 1, 0, 0⟩ := rfl
  have h1 : RecommendationEngine.calculateUsageScore c5DislikeHist "d" = 0 := by
    simp [RecommendationEngine.calculateUsageScore, hl]
  have h2 : claimTotalUsageScore c5DislikeHist "d" = 7 / 100 := by
    simp [claimTotalUsageScore, hl]
    norm_num [min_def, max_def]
  refine ⟨h1, h2, ?_⟩
  rw [h1, h2]
  norm_num

/-- C5 (amended): the usage score formula holds with `total_interactions`
counting views + uses + likes (dislikes are *not* counted); an item with no
usage record scores 0; and the score after exactly one like and zero dislikes
is strictly greater than after one like and one dislike. -/
theorem claim_C5_amended :
    (∀ (hist : List (String × UsageRecord)) (id : String) (u : UsageRecord),
      hist.lookup id = some u →
      RecommendationEngine.calculateUsageScore hist id =
        0.7 * min 1 (((u.viewCount + u.useCount + u.likeCount : Nat) : ℝ) / 10)
        + 0.3 * ((u.likeCount : ℝ) / max 1 ((u.likeCount : ℝ) + (u.dislikeCount : ℝ)))) ∧
    (∀ (hist : List (String × UsageRecord)) (id : String),
      hist.lookup id = none → RecommendationEngine.calculateUsageScore hist id = 0) ∧
    (RecommendationEngine.calculateUsageScore
        (RecommendationEngine.recordUserInteraction [] "x" .like 0) "x"
      > RecommendationEngine.calculateUsageScore
        (RecommendationEngine.recordUserInteraction
          (RecommendationEngine.recordUserInteraction [] "x" .like 0) "x" .dislike 1) "x") := by
  refine ⟨?_, ?_, ?_⟩
  · intro hist id u h
    simp only [RecommendationEngine.calculateUsageScore, h]
    push_cast
    ring
  · intro hist id h
    simp [RecommendationEngine.calculateUsageScore, h]
  · have e1 : (RecommendationEngine.recordUserInteraction [] "x" .like 0).lookup "x"
        = some ⟨"x", 0, 0, 1, 0, 0, 0⟩ := rfl
    have e2 : (RecommendationEngine.recordUserInteraction
        (RecommendationEngine.recordUserInteraction [] "x" .like 0) "x" .dislike 1).lookup "x"
        = some ⟨"x", 0, 0, 1, 1, 1, 0⟩ := rfl
    simp [RecommendationEngine.calculateUsageScore, e1, e2]
    norm_num [min_def, max_def]

/-- C5 witness: the amended formula evaluated on a mixed record, and the
no-record case. -/
theorem claim_C5_witness :
    RecommendationEngine.calculateUsageScore c5WitnessHist "a" =
      0.7 * min 1 (((2 + 0 + 1 : Nat) : ℝ) / 10)
      + 0.3 * (((1 : Nat) : ℝ) / max 1 (((1 : Nat) : ℝ) + ((1 : Nat) : ℝ))) ∧
    RecommendationEngine.calculateUsageScore c5WitnessHist "zzz" = 0 :=
  ⟨claim_C5_amended.1 c5WitnessHist "a" ⟨"a", 2, 0, 1, 1, 0, 0⟩ rfl,
   claim_C5_amended.2.1 c5WitnessHist "zzz" rfl⟩

/-! ## C8: cosine similarity algebra -/

theorem magnitude_mul_self (v : List ℝ) :
    VectorStore.magnitude v * VectorStore.magnitude v = VectorStore.dotProd v v :=
  Real.mul_self_sqrt (dotProd_self_nonneg v)

/-- C8: cosine similarity is symmetric on equal-dimension vectors; a vector
with non-zero magnitude has self-similarity exactly 1; and whenever either
argument has magnitude zero (with dimensions equal) the similarity is defined
to be 0, never an error value. -/
theorem claim_C8_cosine :
    (∀ a b : List ℝ, a.length = b.length →
      VectorStore.calculateCosineSimilarity a b = VectorStore.calculateCosineSimilarity b a) ∧
    (∀ v : List ℝ, VectorStore.magnitude v ≠ 0 →
      VectorStore.calculateCosineSimilarity v v = .ok 1) ∧
    (∀ a b : List ℝ, a.length = b.length →
      VectorStore.magnitude a = 0 ∨ VectorStore.magnitude b = 0 →
      VectorStore.calculateCosineSimilarity a b = .ok 0) := by
  refine ⟨?_, ?_, ?_⟩
  · intro a b h
    unfold VectorStore.calculateCosineSimilarity
    rw [if_neg (not_not_intro h), if_neg (not_not_intro h.symm)]
    by_cases hm : VectorStore.magnitude a = 0 ∨ VectorStore.magnitude b = 0
    · rw [if_pos hm, if_pos (Or.symm hm)]
    · rw [if_neg hm, if_neg (fun hh => hm (Or.symm hh))]
      rw [dotProd_comm a b, mul_comm (VectorStore.magnitude a) (VectorStore.magnitude b)]
  · intro v hm
    unfold VectorStore.calculateCosineSimilarity
    rw [if_neg (not_not_intro rfl), if_neg (by simp [hm])]
    have hd : VectorStore.dotProd v v ≠ 0 := by
      intro h0
      apply hm
      show Real.sqrt (VectorStore.dotProd v v) = 0
      rw [h0, Real.sqrt_zero]
    rw [magnitude_mul_self, div_self hd]
  · intro a b h hm
    unfold VectorStore.calculateCosineSimilarity
    rw [if_neg (not_not_intro h), if_pos hm]

/-- C8 witness: symmetry at `[1,2]`,`[3,4]`; self-similarity 1 at `[3,4]`;
zero-magnitude similarity 0 at `[0,0]`,`[5,6]`. -/
theorem claim_C8_witness :
    VectorStore.calculateCosineSimilarity [1, 2] [3, 4]
      = VectorStore.calculateCosineSimilarity [3, 4] [1, 2] ∧
    VectorStore.calculateCosineSimilarity [3, 4] [3, 4] = .ok 1 ∧
    VectorStore.calculateCosineSimilarity [0, 0] [5, 6] = .ok 0 := by
  refine ⟨claim_C8_cosine.1 [1, 2] [3, 4] rfl, claim_C8_cosine.2.1 [3, 4] ?_,
    claim_C8_cosine.2.2 [0, 0] [5, 6] rfl (Or.inl ?_)⟩
  · have hd : VectorStore.dotProd [3, 4] [3, 4] = 25 := by
      simp [VectorStore.dotProd]
      norm_num
    show Real.sqrt (VectorStore.dotProd [3, 4] [3, 4]) ≠ 0
    rw [hd, Real.sqrt_ne_zero']
    norm_num
  · have hd : VectorStore.dotProd [0, 0] [0, 0] = 0 := by
      simp [VectorStore.dotProd]
    show Real.sqrt (VectorStore.dotProd [0, 0] [0, 0]) = 0
    rw [hd, Real.sqrt_zero]

/-! ## C7: strict complexity filter -/

/-- C7: whenever the effective complexity preference of a request is
`simple`, every item of the result list returned by `recommend` has computed
complexity strictly below 0.5 — the complexity filter has no high-score
bypass. -/
theorem claim_C7_complexity_filter (E : String → List ℝ) (st : VectorStoreState)
    (prefs : UserPreferences) (hist : List (String × UsageRecord))
    (req : RecommendationRequest) (now : ℝ)
    (h : (RecommendationEngine.effPreferences req prefs).complexityPreference = .simple) :
    ∀ x ∈ (RecommendationEngine.recommend E st prefs hist req now).items,
      RecommendationEngine.calculateComplexity x.item < 0.5 := by
  intro x hx
  rw [RecommendationEngine.recommend] at hx
  cases hc : RecommendationEngine.recommendCore E st prefs hist req now with
  | error e =>
    rw [hc] at hx
    simp [RecommendationEngine.getFallbackRecommendation] at hx
  | ok r =>
    rw [hc] at hx
    simp only [RecommendationEngine.recommendCore] at hc
    cases hg : RecommendationEngine.getCandidates E st req
        (RecommendationEngine.determineStrategy req) with
    | error e =>
      rw [hg, except_bind_error] at hc
      cases hc
    | ok cands =>
      rw [hg, except_bind_ok] at hc
      cases hs : RecommendationEngine.scoreItems E st prefs hist req now cands with
      | error e =>
        rw [hs, except_bind_error] at hc
        cases hc
      | ok scored =>
        rw [hs, except_bind_ok] at hc
        have hr : r.items = (RecommendationEngine.sortByScore
            (RecommendationEngine.applyFilters scored req prefs)).take
            (natTruthyGetD req.maxResults 10) := by
          cases hc
          rfl
        rw [hr] at hx
        have hx2 : x ∈ RecommendationEngine.sortByScore
            (RecommendationEngine.applyFilters scored req prefs) :=
          List.take_subset _ _ hx
        rw [RecommendationEngine.sortByScore] at hx2
        have hx3 : x ∈ RecommendationEngine.applyFilters scored req prefs :=
          (mem_sortByDesc _ _ x).1 hx2
        simp only [RecommendationEngine.applyFilters, h] at hx3
        rw [if_pos (by decide)] at hx3
        have := (List.mem_filter.1 hx3).2
        exact of_decide_eq_true this

/-- C7 witness: the theorem applied to a concrete request carrying the
`simple` complexity preference over the empty store. -/
theorem claim_C7_witness :
    (RecommendationEngine.effPreferences c7Request
      RecommendationEngine.getDefaultPreferences).complexityPreference = .simple ∧
    ∀ x ∈ (RecommendationEngine.recommend (fun _ => [(1 : ℝ)]) emptyVectorStore
        RecommendationEngine.getDefaultPreferences [] c7Request 0).items,
      RecommendationEngine.calculateComplexity x.item < 0.5 :=
  ⟨rfl, claim_C7_complexity_filter (fun _ => [(1 : ℝ)]) emptyVectorStore
    RecommendationEngine.getDefaultPreferences [] c7Request 0 rfl⟩

/-! ## C4: recommend never propagates exceptions -/

theorem fallback_explanation_ne (req : RecommendationRequest) :
    (RecommendationEngine.getFallbackRecommendation req).explanation ≠ "" := by
  show "推荐系统暂时不可用，请稍后重试" ≠ ""
  decide

theorem findSimilar_empty (E : String → List ℝ) (st : VectorStoreState)
    (q : String) (th : ℝ) (lim : Nat) (hv : st.vectors = []) :
    VectorStore.findSimilar E st q th lim = .ok [] := by
  simp [VectorStore.findSimilar, hv, VectorStore.sortByDesc, List.mapM,
    except_mapM_loop_nil, except_pure_eq_ok, except_bind_ok, List.take_nil]

theorem dedup_nil : RecommendationEngine.deduplicateItems [] = [] := rfl

theorem scoreItems_nil (E : String → List ℝ) (st : VectorStoreState)
    (prefs : UserPreferences) (hist : List (String × UsageRecord))
    (req : RecommendationRequest) (now : ℝ) :
    RecommendationEngine.scoreItems E st prefs hist req now [] = .ok [] := rfl

theorem applyFilters_nil (req : RecommendationRequest) (prefs : UserPreferences) :
    RecommendationEngine.applyFilters [] req prefs = [] := by
  simp [RecommendationEngine.applyFilters]

theorem sortByScore_nil : RecommendationEngine.sortByScore [] = [] := rfl

theorem getCandidates_empty (E : String → List ℝ) (st : VectorStoreState)
    (req : RecommendationRequest) (strategy : RecommendationStrategy)
    (hv : st.vectors = []) :
    RecommendationEngine.getCandidates E st req strategy = .ok []
    ∨ ∃ e, RecommendationEngine.getCandidates E st req strategy = .error e := by
  cases strategy with
  | semantic_search =>
    left
    by_cases hq : strTruthy req.query = true
    · simp [RecommendationEngine.getCandidates, hq, findSimilar_empty E st _ _ _ hv,
        except_bind_ok, except_pure_eq_ok, RecommendationEngine.deduplicateItems,
        RecommendationEngine.dedupAux]
    · rw [Bool.not_eq_true] at hq
      simp [RecommendationEngine.getCandidates, hq, except_pure_eq_ok, except_bind_ok,
        RecommendationEngine.deduplicateItems, RecommendationEngine.dedupAux]
  | contextual =>
    cases hcc : req.currentContext with
    | none =>
      left
      simp [RecommendationEngine.getCandidates, hcc, except_pure_eq_ok, except_bind_ok,
        RecommendationEngine.deduplicateItems, RecommendationEngine.dedupAux]
    | some ctx =>
      cases ctx with
      | nil =>
        left
        simp [RecommendationEngine.getCandidates, hcc, List.mapM, except_mapM_loop_nil,
          except_pure_eq_ok, except_bind_ok, except_map_ok,
          RecommendationEngine.deduplicateItems, RecommendationEngine.dedupAux]
      | cons c rest =>
        right
        refine ⟨"向量数据不存在: " ++ c.id, ?_⟩
        have hf : VectorStore.findSimilarById st c.id 0.4 20
            = .error ("向量数据不存在: " ++ c.id) := by
          simp [VectorStore.findSimilarById, hv]
        simp [RecommendationEngine.getCandidates, hcc, List.mapM, except_mapM_loop_cons,
          hf, except_bind_error, except_map_error]
  | content_based =>
    left
    simp [RecommendationEngine.getCandidates, VectorStore.getAllIds, hv,
      except_pure_eq_ok, except_bind_ok, RecommendationEngine.deduplicateItems,
      RecommendationEngine.dedupAux]
  | hybrid =>
    left
    simp [RecommendationEngine.getCandidates, VectorStore.getAllIds, hv,
      except_pure_eq_ok, except_bind_ok, RecommendationEngine.deduplicateItems,
      RecommendationEngine.dedupAux]
  | collaborative_filtering =>
    left
    simp [RecommendationEngine.getCandidates, VectorStore.getAllIds, hv,
      except_pure_eq_ok, except_bind_ok, RecommendationEngine.deduplicateItems,
      RecommendationEngine.dedupAux]
  | temporal =>
    left
    simp [RecommendationEngine.getCandidates, VectorStore.getAllIds, hv,
      except_pure_eq_ok, except_bind_ok, RecommendationEngine.deduplicateItems,
      RecommendationEngine.dedupAux]

/-- C4: `recommend` never propagates an exception — whenever its body fails
it returns the well-formed fallback result (empty items, confidence 0,
non-empty explanation); and on an empty vector index every request yields an
empty item list, confidence 0, and a non-empty explanation. -/
theorem claim_C4_recommend_safe :
    (∀ (E : String → List ℝ) (st : VectorStoreState) (prefs : UserPreferences)
      (hist : List (String × UsageRecord)) (req : RecommendationRequest) (now : ℝ)
      (e : String),
      RecommendationEngine.recommendCore E st prefs hist req now = .error e →
      RecommendationEngine.recommend E st prefs hist req now
        = RecommendationEngine.getFallbackRecommendation req ∧
      (RecommendationEngine.getFallbackRecommendation req).items = [] ∧
      (RecommendationEngine.getFallbackRecommendation req).confidence = 0 ∧
      (RecommendationEngine.getFallbackRecommendation req).explanation ≠ "") ∧
    (∀ (E : String → List ℝ) (st : VectorStoreState) (prefs : UserPreferences)
      (hist : List (String × UsageRecord)) (req : RecommendationRequest) (now : ℝ),
      st.vectors = [] →
      (RecommendationEngine.recommend E st prefs hist req now).items = [] ∧
      (RecommendationEngine.recommend E st prefs hist req now).confidence = 0 ∧
      (RecommendationEngine.recommend E st prefs hist req now).explanation ≠ "") := by
  constructor
  · intro E st prefs hist req now e h
    rw [RecommendationEngine.recommend, h]
    exact ⟨rfl, rfl, rfl, fallback_explanation_ne req⟩
  · intro E st prefs hist req now hv
    rcases getCandidates_empty E st req (RecommendationEngine.determineStrategy req) hv
      with hg | ⟨e, hg⟩
    · have hcore : RecommendationEngine.recommendCore E st prefs hist req now
          = .ok { items := []
                  explanation := "未找到符合条件的推荐内容"
                  confidence := 0
                  strategy := RecommendationEngine.determineStrategy req
                  metadata := ⟨0, 0, RecommendationEngine.getAppliedFilters req, "1.0.0"⟩ } := by
        simp only [RecommendationEngine.recommendCore, hg, except_bind_ok,
          scoreItems_nil, applyFilters_nil, sortByScore_nil, List.take_nil,
          except_pure_eq_ok]
        simp [RecommendationEngine.generateExplanation,
          RecommendationEngine.calculateOverallConfidence]
      rw [RecommendationEngine.recommend, hcore]
      refine ⟨rfl, rfl, ?_⟩
      show "未找到符合条件的推荐内容" ≠ ""
      decide
    · have hcore : RecommendationEngine.recommendCore E st prefs hist req now = .error e := by
        simp only [RecommendationEngine.recommendCore, hg, except_bind_error]
      rw [RecommendationEngine.recommend, hcore]
      exact ⟨rfl, rfl, fallback_explanation_ne req⟩

/-- C4 witness: a contextual request naming an unstored id makes the body
throw NotFound; `recommend` swallows it and returns the fallback. -/
theorem claim_C4_witness :
    RecommendationEngine.recommendCore c2E emptyVectorStore
      RecommendationEngine.getDefaultPreferences [] c4Request 0
      = .error ("向量数据不存在: " ++ "c4") ∧
    RecommendationEngine.recommend c2E emptyVectorStore
      RecommendationEngine.getDefaultPreferences [] c4Request 0
      = RecommendationEngine.getFallbackRecommendation c4Request ∧
    (RecommendationEngine.getFallbackRecommendation c4Request).items = [] ∧
    (RecommendationEngine.getFallbackRecommendation c4Request).confidence = 0 ∧
    (RecommendationEngine.getFallbackRecommendation c4Request).explanation ≠ "" := by
  have hcore : RecommendationEngine.recommendCore c2E emptyVectorStore
      RecommendationEngine.getDefaultPreferences [] c4Request 0
      = .error ("向量数据不存在: " ++ "c4") := rfl
  exact ⟨hcore, claim_C4_recommend_safe.1 c2E emptyVectorStore
    RecommendationEngine.getDefaultPreferences [] c4Request 0 _ hcore⟩

/-! ## C2: semantic component evaluation -/

theorem cos_one_one : VectorStore.calculateCosineSimilarity [1] [1] = .ok 1 := by
  have hd : VectorStore.dotProd [1] [1] = 1 := by
    simp [VectorStore.dotProd]
  have hm : VectorStore.magnitude [1] = 1 := by
    show Real.sqrt (VectorStore.dotProd [1] [1]) = 1
    rw [hd, Real.sqrt_one]
  unfold VectorStore.calculateCosineSimilarity
  rw [if_neg (not_not_intro rfl), if_neg (by simp [hm])]
  rw [hd, hm]
  norm_num

theorem c2_findSimilar :
    VectorStore.findSimilar c2E c2Store "q" 0 1 = .ok [⟨c2ItemA, 1, [1]⟩] := by
  have hq : (VectorStore.embedContent c2E [] "q").1 = [1] := rfl
  have hcrA : VectorStore.createContextItemFromVector c2Store "A" = .ok c2ItemA := rfl
  simp only [VectorStore.findSimilar, hq, c2Store, c2RecordA, c2RecordB, List.mapM,
    except_mapM_loop_cons, except_mapM_loop_nil, cos_one_one, except_map_ok,
    except_bind_ok, List.reverse_cons, List.reverse_nil, List.nil_append,
    List.cons_append, List.filter_cons, List.filter_nil]
  norm_num [VectorStore.sortByDesc, VectorStore.insertByDesc, List.take_succ_cons,
    List.take_zero, hcrA, except_mapM_loop_cons, except_mapM_loop_nil, except_map_ok,
    except_bind_ok, except_pure_eq_ok]
  rfl

theorem c2w_findSimilar :
    VectorStore.findSimilar c2E c2wStore "q" 0 1 = .ok [⟨c2ItemA, 1, [1]⟩] := by
  have hq : (VectorStore.embedContent c2E [] "q").1 = [1] := rfl
  have hcrA : VectorStore.createContextItemFromVector c2wStore "A" = .ok c2ItemA := rfl
  simp only [VectorStore.findSimilar, hq, c2wStore, c2RecordA, List.mapM,
    except_mapM_loop_cons, except_mapM_loop_nil, cos_one_one, except_map_ok,
    except_bind_ok, List.reverse_cons, List.reverse_nil, List.nil_append,
    List.cons_append, List.filter_cons, List.filter_nil]
  norm_num [VectorStore.sortByDesc, VectorStore.insertByDesc, List.take_succ_cons,
    List.take_zero, hcrA, except_mapM_loop_cons, except_mapM_loop_nil, except_map_ok,
    except_bind_ok, except_pure_eq_ok]
  rfl

theorem c2_temporal (item : ContextItem) :
    RecommendationEngine.calculateTemporalScore RecommendationEngine.getDefaultPreferences
      c2Request item 0 = 0.5 := by
  simp [RecommendationEngine.calculateTemporalScore, RecommendationEngine.effPreferences,
    c2Request, c2Prefs]

theorem c2_pref_B :
    RecommendationEngine.calculatePreferenceScore RecommendationEngine.getDefaultPreferences
      c2Request c2ItemB = 0 := by
  simp [RecommendationEngine.calculatePreferenceScore, RecommendationEngine.effPreferences,
    c2Request, c2Prefs, c2ItemB]
  norm_num [min_def]

theorem c2_pref_A :
    RecommendationEngine.calculatePreferenceScore RecommendationEngine.getDefaultPreferences
      c2Request c2ItemA = 0 := by
  simp [RecommendationEngine.calculatePreferenceScore, RecommendationEngine.effPreferences,
    c2Request, c2Prefs, c2ItemA]
  norm_num [min_def]

theorem c2_quality_B : RecommendationEngine.calculateQualityScore c2ItemB = 0.5 := by
  simp [RecommendationEngine.calculateQualityScore, c2ItemB]
  norm_num [min_def]

theorem c2_quality_A : RecommendationEngine.calculateQualityScore c2ItemA = 0.5 := by
  simp [RecommendationEngine.calculateQualityScore, c2ItemA]
  norm_num [min_def]

theorem c2_score_B :
    RecommendationEngine.calculateItemScore c2E c2Store
      RecommendationEngine.getDefaultPreferences [] c2Request 0 c2ItemB
      = .ok ⟨0, 0.1, 0, 0, 0.05, 0.15⟩ := by
  have hfind : (([⟨c2ItemA, 1, [1]⟩] : List SimilarityResult).find?
      (fun r => r.item.id == c2ItemB.id)) = none := rfl
  have husage : RecommendationEngine.calculateUsageScore [] c2ItemB.id = 0 := rfl
  simp only [RecommendationEngine.calculateItemScore]
  rw [if_pos (show strTruthy c2Request.query = true from rfl)]
  rw [show c2Request.query.getD "" = "q" from rfl]
  rw [c2_findSimilar]
  simp only [except_map_ok, except_bind_ok, hfind, Option.map_none', Option.getD_none,
    c2_temporal, c2_pref_B, husage, c2_quality_B, except_pure_eq_ok]
  norm_num

theorem c2w_score_A :
    RecommendationEngine.calculateItemScore c2E c2wStore
      RecommendationEngine.getDefaultPreferences [] c2Request 0 c2ItemA
      = .ok ⟨0.4, 0.1, 0, 0, 0.05, 0.55⟩ := by
  have hfind : (([⟨c2ItemA, 1, [1]⟩] : List SimilarityResult).find?
      (fun r => r.item.id == c2ItemA.id)) = some ⟨c2ItemA, 1, [1]⟩ := rfl
  have husage : RecommendationEngine.calculateUsageScore [] c2ItemA.id = 0 := rfl
  simp only [RecommendationEngine.calculateItemScore]
  rw [if_pos (show strTruthy c2Request.query = true from rfl)]
  rw [show c2Request.query.getD "" = "q" from rfl]
  rw [c2w_findSimilar]
  simp only [except_map_ok, except_bind_ok, hfind, Option.map_some', Option.getD_some,
    c2_temporal, c2_pref_A, husage, c2_quality_A, except_pure_eq_ok]
  norm_num

/-- C2 counterexample: with two stored records of identical vectors and a
query embedding equal to them, candidate `B` has cosine similarity 1 to the
query, yet its semantic component is 0 (not 1 × 0.4): `calculateItemScore`
recomputed `findSimilar(query, 0, 1)` whose single slot is taken by `A`. -/
theorem claim_C2_counterexample :
    RecommendationEngine.calculateItemScore c2E c2Store
      RecommendationEngine.getDefaultPreferences [] c2Request 0 c2ItemB
      = .ok ⟨0, 0.1, 0, 0, 0.05, 0.15⟩ ∧
    VectorStore.calculateCosineSimilarity
      (VectorStore.embedContent c2E c2Store.embeddingCache "q").1 c2RecordB.vector
      = .ok 1 ∧
    (0 : ℝ) ≠ 1 * 0.4 := by
  refine ⟨c2_score_B, ?_, by norm_num⟩
  exact cos_one_one

/-- C2 (amended): for every request with a non-empty query, the total score
is the sum of the five weighted components, and the semantic component
equals 0.4 times the similarity recorded for the candidate in the top-1
result of `findSimilar(query, 0, 1)` — which is 0 whenever the candidate is
not that single top result, rather than 0.4 times the candidate's own cosine
similarity to the query. -/
theorem claim_C2_amended (E : String → List ℝ) (st : VectorStoreState)
    (prefs : UserPreferences) (hist : List (String × UsageRecord))
    (req : RecommendationRequest) (now : ℝ) (item : ContextItem) (q : String)
    (sc : RecommendationEngine.ScoreComponents) (sims : List SimilarityResult)
    (hq : req.query = some q) (hne : q ≠ "")
    (hsc : RecommendationEngine.calculateItemScore E st prefs hist req now item = .ok sc)
    (hsims : VectorStore.findSimilar E st q 0 1 = .ok sims) :
    sc.total = sc.semantic + sc.temporal + sc.preference + sc.usage + sc.quality ∧
    sc.semantic = (((sims.find? (fun r => r.item.id == item.id)).map
      (fun r => r.similarity)).getD 0) * 0.4 := by
  have ht : strTruthy req.query = true := by simp [hq, strTruthy, hne]
  rw [RecommendationEngine.calculateItemScore, if_pos ht] at hsc
  rw [hq] at hsc
  rw [show (some q).getD "" = q from rfl] at hsc
  rw [hsims, except_bind_ok, except_pure_eq_ok, except_bind_ok, except_pure_eq_ok] at hsc
  simp only [Except.ok.injEq] at hsc
  subst hsc
  exact ⟨rfl, rfl⟩

/-- C2 witness: the amended theorem applied to the one-record store, where
candidate `A` is the top-1 result and receives semantic component 1 × 0.4. -/
theorem claim_C2_witness :
    RecommendationEngine.calculateItemScore c2E c2wStore
      RecommendationEngine.getDefaultPreferences [] c2Request 0 c2ItemA
      = .ok ⟨0.4, 0.1, 0, 0, 0.05, 0.55⟩ ∧
    ((0.55 : ℝ) = 0.4 + 0.1 + 0 + 0 + 0.05 ∧
     (0.4 : ℝ) = ((([⟨c2ItemA, 1, [1]⟩] : List SimilarityResult).find?
       (fun r => r.item.id == c2ItemA.id)).map (fun r => r.similarity)).getD 0 * 0.4) := by
  refine ⟨c2w_score_A, ?_⟩
  exact claim_C2_amended c2E c2wStore RecommendationEngine.getDefaultPreferences []
    c2Request 0 c2ItemA "q" ⟨0.4, 0.1, 0, 0, 0.05, 0.55⟩ [⟨c2ItemA, 1, [1]⟩]
    rfl (by decide) c2w_score_A c2w_findSimilar

/-! ## C1: clustering -/

theorem euclid_zz : VectorStore.calculateEuclideanDistance zVec zVec = 0 := by
  show Real.sqrt ((zVec.zipWith (fun x y => (x - y) ^ 2) zVec).sum) = 0
  rw [zVec, List.zipWith_replicate, List.sum_replicate]
  norm_num [Real.sqrt_zero]

theorem addVec_zz : VectorStore.addVec zVec zVec = zVec := by
  show (zVec.zipWith (fun a b => a + b) zVec) ++ zVec.drop zVec.length = zVec
  rw [zVec, List.zipWith_replicate, List.length_replicate, List.drop_replicate]
  simp

theorem centroid_zz : VectorStore.calculateCentroid [zVec, zVec] = zVec := by
  rw [VectorStore.calculateCentroid, if_neg (by simp)]
  have h0 : List.replicate VECTOR_DIMENSION (0 : ℝ) = zVec := rfl
  rw [List.foldl_cons, List.foldl_cons, List.foldl_nil, h0, addVec_zz, addVec_zz]
  rw [zVec, List.map_replicate]
  norm_num

theorem nearest_zz : VectorStore.nearestIdx [zVec, zVec] zVec = 0 := by
  simp only [VectorStore.nearestIdx, VectorStore.nearestIdxAux, euclid_zz]
  norm_num

theorem assign_zz : VectorStore.assignPoints [zVec, zVec] [c1RecordA, c1RecordB]
    = [⟨zVec, [c1RecordA, c1RecordB]⟩, ⟨zVec, []⟩] := by
  simp [VectorStore.assignPoints, enumIdx, enumIdxFrom, c1RecordA, c1RecordB, nearest_zz,
    List.filter_cons, List.filter_nil]

theorem step_zz : VectorStore.kMeansStep [c1RecordA, c1RecordB] [zVec, zVec]
    = ([⟨zVec, [c1RecordA, c1RecordB]⟩, ⟨zVec, []⟩], [zVec, zVec], true) := by
  have hu1 : VectorStore.updateCluster ⟨zVec, [c1RecordA, c1RecordB]⟩
      = (⟨zVec, [c1RecordA, c1RecordB]⟩, false) := by
    rw [VectorStore.updateCluster, if_neg (by simp)]
    have hmapv : ([c1RecordA, c1RecordB].map (fun p => p.vector)) = [zVec, zVec] := rfl
    simp only [hmapv, centroid_zz, euclid_zz]
    norm_num
  have hu2 : VectorStore.updateCluster ⟨zVec, []⟩ = (⟨zVec, []⟩, false) := by
    rw [VectorStore.updateCluster]
    simp
  rw [VectorStore.kMeansStep, assign_zz]
  simp [hu1, hu2]

theorem loop_zz : VectorStore.kMeansLoop [c1RecordA, c1RecordB] 100 [zVec, zVec] []
    = [⟨zVec, [c1RecordA, c1RecordB]⟩, ⟨zVec, []⟩] := by
  rw [show (100 : Nat) = 99 + 1 from rfl, VectorStore.kMeansLoop, step_zz]
  simp

theorem kmc_zz : VectorStore.kMeansClustering [c1RecordA, c1RecordB] 2 [0, 0]
    = [⟨zVec, [c1RecordA, c1RecordB]⟩, ⟨zVec, []⟩] := by
  have hc : ((List.range 2).map (fun i =>
      (([c1RecordA, c1RecordB].getD ((([0, 0] : List Nat).getD i 0)
        % ([c1RecordA, c1RecordB].length)) ⟨"", [], [], 0⟩).vector))) = [zVec, zVec] := rfl
  rw [VectorStore.kMeansClustering, hc]
  exact loop_zz

theorem coh_zz : VectorStore.calculateClusterCoherence [c1RecordA, c1RecordB] zVec = 1 := by
  rw [VectorStore.calculateClusterCoherence, if_neg (by simp)]
  have hmap : ([c1RecordA, c1RecordB].map
      (fun p => VectorStore.calculateEuclideanDistance p.vector zVec)) = [0, 0] := by
    simp [c1RecordA, c1RecordB, euclid_zz]
  rw [hmap]
  norm_num

theorem coh_empty : VectorStore.calculateClusterCoherence [] zVec = 0 := by
  rw [VectorStore.calculateClusterCoherence]
  simp

/-- C1 counterexample: with two stored records carrying equal vectors and
k = 2 (so k equals — and is not greater than — the number of stored vectors),
`performClustering` runs k-means; a duplicate random initialisation yields one
cluster holding **both** items and one empty cluster with coherence 0, not
one singleton cluster of coherence 1.0 per vector. -/
theorem claim_C1_counterexample :
    c1Store.vectors.length = 2 ∧
    VectorStore.performClustering c1Store 2 [0, 0]
      = .ok [⟨"cluster-0", [c1ItemA, c1ItemB], zVec, 1⟩, ⟨"cluster-1", [], zVec, 0⟩] ∧
    (([⟨"cluster-0", [c1ItemA, c1ItemB], zVec, 1⟩,
       (⟨"cluster-1", [], zVec, 0⟩ : ClusterResult)].map (fun c => c.items.length)) = [2, 0]) := by
  refine ⟨rfl, ?_, rfl⟩
  have hA : VectorStore.createContextItemFromVector c1Store "a" = .ok c1ItemA := rfl
  have hB : VectorStore.createContextItemFromVector c1Store "b" = .ok c1ItemB := rfl
  have hs0 : ("cluster-" ++ toString (0 : Nat)) = "cluster-0" := rfl
  have hs1 : ("cluster-" ++ toString (1 : Nat)) = "cluster-1" := rfl
  have hvl : (c1Store.vectors.map (fun e => e.2)) = [c1RecordA, c1RecordB] := rfl
  rw [VectorStore.performClustering]
  rw [if_neg (by decide)]
  rw [hvl, kmc_zz]
  have haid : c1RecordA.id = "a" := rfl
  have hbid : c1RecordB.id = "b" := rfl
  simp only [enumIdx, enumIdxFrom, List.mapM, except_mapM_loop_cons, except_mapM_loop_nil,
    haid, hbid, hA, hB, except_bind_ok, except_map_ok, except_pure_eq_ok,
    coh_zz, coh_empty, hs0, hs1, List.reverse_cons, List.reverse_nil, List.nil_append,
    List.cons_append, List.append_nil]

/-- C1 (amended): for every well-formed index state (distinct keys, records
keyed by their own id) and every k **strictly greater** than the number of
stored vectors, `performClustering` returns — for any random choice — one
cluster per stored vector, each containing only that vector, with centroid
equal to the stored vector and coherence exactly 1.0.  (At k equal to the
count, k-means runs instead and need not produce singletons.) -/
theorem claim_C1_amended (st : VectorStoreState) (k : Nat) (seeds : List Nat)
    (hkeys : (st.vectors.map Prod.fst).Nodup)
    (hids : ∀ e ∈ st.vectors, e.2.id = e.1)
    (hk : st.vectors.length < k) :
    VectorStore.performClustering st k seeds
      = .ok ((enumIdx (st.vectors.map (fun e => e.2))).map (fun ivd =>
          ⟨"cluster-" ++ toString ivd.1,
           [VectorStore.contextItemFromRecord ivd.2.id ivd.2], ivd.2.vector, 1⟩)) := by
  rw [VectorStore.performClustering]
  rw [if_pos (by simpa using hk)]
  apply mapM_ok_of_forall
  intro ivd hmem
  have hv2 : ivd.2 ∈ st.vectors.map (fun e => e.2) :=
    mem_of_mem_enumIdxFrom _ 0 ivd hmem
  rcases List.mem_map.1 hv2 with ⟨e, he, hee⟩
  have hid : ivd.2.id = e.1 := by
    rw [← hee]
    exact hids e he
  have hlk : st.vectors.lookup ivd.2.id = some ivd.2 := by
    rw [hid, ← hee]
    exact lookup_of_mem_of_nodup st.vectors e.1 e.2 hkeys (by
      rcases e with ⟨k1, v1⟩
      exact he)
  have hcr : VectorStore.createContextItemFromVector st ivd.2.id
      = .ok (VectorStore.contextItemFromRecord ivd.2.id ivd.2) := by
    rw [VectorStore.createContextItemFromVector, hlk]
  rw [hcr]
  rfl

/-- C1 witness: the amended theorem applied to the two-record store with
k = 3 > 2. -/
theorem claim_C1_witness :
    VectorStore.performClustering c1Store 3 []
      = .ok ((enumIdx (c1Store.vectors.map (fun e => e.2))).map (fun ivd =>
          ⟨"cluster-" ++ toString ivd.1,
           [VectorStore.contextItemFromRecord ivd.2.id ivd.2], ivd.2.vector, 1⟩)) :=
  claim_C1_amended c1Store 3 [] (by decide) (by decide) (by decide)
